import Mathlib

/-!
# Shallow embedding of `modules/instagram.py`

This file embeds the Instagram-fetching module of the miso-bot repository in
Lean 4 and proves properties of its data model, ID codec, response parsers,
candidate selection, caching client and error handling.

Conventions of the embedding:

* Raw API responses are values of a `Json` inductive (integers suffice for the
  numeric fields the module touches; floats never reach the parsed fields).
* Python exceptions are modelled by the `PyError` type; fallible Python code
  becomes `Except PyError α`.  Dictionary indexing `d["k"]` raising `KeyError`,
  `list[i]` raising `IndexError`, `enum(x)` raising `ValueError`,
  `next(filter(..))` raising `StopIteration` are all explicit.
* `async` plays no role in the properties below; coroutines are embedded as
  pure functions of their inputs, with the HTTP layer supplied as an explicit
  response value (or response oracle) and the redis cache as explicit state.
* Recursion over nested JSON (album resources) uses an explicit `fuel`
  parameter, the standard device for general recursion over `Json`; the Python
  recursion terminates on every finite JSON value, and every theorem below
  quantifies over the fuel or instantiates it concretely.
-/

namespace Miso

/-- A JSON value as the module sees it (`orjson` output).  Numbers are
integers: every numeric field the module reads (`media_type`, `pk`, `width`,
`height`, timestamps) is an integer in the API responses. -/
inductive Json where
  | null
  | bool (b : Bool)
  | num (n : Int)
  | str (s : String)
  | arr (elems : List Json)
  | obj (fields : List (String × Json))
deriving Repr, Inhabited

/-- Python exceptions raised (directly or by builtins) in `modules/instagram.py`. -/
inductive PyError where
  | expiredCookie
  | expiredStory
  | instagramError (message : String)
  | typeError (message : String)
  | valueError (message : String)
  | keyError (key : String)
  | attributeError (message : String)
  | indexError
  | stopIteration
  /-- `aiohttp` error raised by `response.raise_for_status()` on a non-2xx status. -/
  | clientResponseError (status : Nat)
deriving Repr, DecidableEq, Inhabited

namespace Json

/-- Python `d[k]` on a JSON object: the value under the first occurrence of the
key, `KeyError` otherwise; `TypeError` when the subscripted value is not an
object. -/
def index (j : Json) (k : String) : Except PyError Json :=
  match j with
  | .obj fields =>
    match fields.find? (fun f => f.1 = k) with
    | some f => .ok f.2
    | none => .error (.keyError k)
  | _ => .error (.typeError "object is not subscriptable")

/-- Python `d.get(k)` on a JSON object: `none` when the key is absent. -/
def get (j : Json) (k : String) : Option Json :=
  match j with
  | .obj fields => (fields.find? (fun f => f.1 = k)).map (·.2)
  | _ => none

/-- Python `xs[i]` on a JSON array (`IndexError` out of range, `TypeError` on
a non-array). -/
def atIdx (j : Json) (i : Nat) : Except PyError Json :=
  match j with
  | .arr elems =>
    match elems.get? i with
    | some e => .ok e
    | none => .error .indexError
  | _ => .error (.typeError "object is not subscriptable")

/-- Python `xs[-1]` on a JSON array: its last element. -/
def last (j : Json) : Except PyError Json :=
  match j with
  | .arr elems =>
    match elems.getLast? with
    | some e => .ok e
    | none => .error .indexError
  | _ => .error (.typeError "object is not subscriptable")

/-- The elements of a JSON array (`TypeError` when iterating a non-array). -/
def elems : Json → Except PyError (List Json)
  | .arr es => .ok es
  | _ => .error (.typeError "object is not iterable")

/-- A JSON value that must be a string (dynamic typing: anything else is a
type error at the point of use). -/
def asStr : Json → Except PyError String
  | .str s => .ok s
  | _ => .error (.typeError "expected str")

/-- Python truthiness of a JSON value (`None`, `False`, `0`, `""`, `[]`, `{}`
are falsy). -/
def truthy : Json → Bool
  | .null => false
  | .bool b => b
  | .num n => n != 0
  | .str s => s != ""
  | .arr es => !es.isEmpty
  | .obj fs => !fs.isEmpty

/-- Python `int(x)` on a JSON value: identity on integers, decimal parse on
strings (`ValueError` when unparsable), `TypeError` otherwise. -/
def toInt : Json → Except PyError Int
  | .num n => .ok n
  | .str s =>
    match s.toInt? with
    | some n => .ok n
    | none => .error (.valueError "invalid literal for int")
  | _ => .error (.typeError "int() argument")

/-- The text Python's f-string interpolation produces for a JSON value
(`str(x)`; `None` prints as `"None"`). -/
def fstr : Json → String
  | .null => "None"
  | .bool b => if b then "True" else "False"
  | .num n => toString n
  | .str s => s
  | .arr _ => "[...]"
  | .obj _ => "{...}"

/-- The text Python's f-string produces for `d.get(k)`: `"None"` when absent. -/
def fstrOpt : Option Json → String
  | none => "None"
  | some j => j.fstr

end Json

/-! ## Data model (`MediaType`, `IgMedia`, `IgUser`, `IgPost`) -/

/-- `class MediaType(Enum)`: the API's own type codes. -/
inductive MediaType where
  | PHOTO
  | VIDEO
  | ALBUM
  | NONE
deriving Repr, DecidableEq, Inhabited

/-- The numeric value of each `MediaType` member (`PHOTO = 1`, `VIDEO = 2`,
`ALBUM = 8`, `NONE = 0`). -/
def MediaType.code : MediaType → Int
  | .PHOTO => 1
  | .VIDEO => 2
  | .ALBUM => 8
  | .NONE => 0

/-- Python `MediaType(x)`: enum lookup by value, `ValueError` for a value that
is not a member. -/
def MediaType.ofCode : Int → Except PyError MediaType
  | 1 => .ok .PHOTO
  | 2 => .ok .VIDEO
  | 8 => .ok .ALBUM
  | 0 => .ok .NONE
  | _ => .error (.valueError "not a valid MediaType")

/-- `@dataclass IgMedia`. -/
structure IgMedia where
  media_type : MediaType
  url : String
deriving Repr, DecidableEq, Inhabited

/-- `@dataclass IgUser`.  `id` is kept as raw JSON because the APIs disagree on
its type (integer from v1, numeric string from GraphQL). -/
structure IgUser where
  id : Json
  username : String
  avatar_url : String
deriving Repr, Inhabited

/-- `@dataclass IgPost`. -/
structure IgPost where
  user : IgUser
  media : List IgMedia
  timestamp : Int
deriving Repr, Inhabited

/-! ## `InstagramIdCodec` -/

namespace InstagramIdCodec

/-- The fixed 64-symbol alphabet. -/
def ENCODING_CHARS : String :=
  "ABCDEFGHIJKLMNOPQRSTUVWXYZabcdefghijklmnopqrstuvwxyz0123456789-_"

/-- Python `s.index(c)`: position of the first occurrence, `none` standing for
the `ValueError("substring not found")` it raises. -/
def strIndex : List Char → Char → Option Nat
  | [], _ => none
  | a :: as, c => if a = c then some 0 else (strIndex as c).map (· + 1)

/-- `alphabet[i]` for an in-range index (every use has `i < 64`). -/
def alphaChar (i : Nat) : Char :=
  ENCODING_CHARS.toList.getD i 'A'

/-- The `while num:` loop of `encode`, collecting `alphabet[num % base]` in
least-significant-first order (the Python `arr` before `arr.reverse()`). -/
def encodeDigits (num : Nat) : List Char :=
  if h : num = 0 then []
  else alphaChar (num % 64) :: encodeDigits (num / 64)
decreasing_by exact Nat.div_lt_self (Nat.pos_of_ne_zero h) (by norm_num)

/-- `InstagramIdCodec.encode`: convert a numeric value to a shortcode,
most-significant digit first; `encode(0) == alphabet[0]`. -/
def encode (num : Nat) : String :=
  if num = 0 then String.mk [alphaChar 0]
  else String.mk (encodeDigits num).reverse

/-- The `for char in shortcode:` loop of `decode`: `num += alphabet.index(char)
* base ** (strlen - (idx + 1))`, with `alphabet.index` raising `ValueError` on
a character outside the alphabet. -/
def decodeLoop (strlen : Nat) : List Char → Nat → Nat → Except PyError Nat
  | [], _, num => .ok num
  | c :: cs, idx, num =>
    match strIndex ENCODING_CHARS.toList c with
    | none => .error (.valueError "substring not found")
    | some d => decodeLoop strlen cs (idx + 1) (num + d * 64 ^ (strlen - (idx + 1)))

/-- `InstagramIdCodec.decode`: convert a shortcode to a numeric value. -/
def decode (shortcode : String) : Except PyError Nat :=
  decodeLoop shortcode.length shortcode.toList 0 0

/-- Ghost companion of `encodeDigits`: the numeric base-64 digits of `num`,
least significant first. -/
def natDigits (num : Nat) : List Nat :=
  if h : num = 0 then []
  else num % 64 :: natDigits (num / 64)
decreasing_by exact Nat.div_lt_self (Nat.pos_of_ne_zero h) (by norm_num)

/-- Value of a most-significant-first digit list (what `decode` computes). -/
def msbVal : List Nat → Nat
  | [] => 0
  | d :: ds => d * 64 ^ ds.length + msbVal ds

/-- The digit a character of the alphabet decodes to (`0` when outside; only
used under a membership hypothesis). -/
def digitOf (c : Char) : Nat :=
  (strIndex ENCODING_CHARS.toList c).getD 0

end InstagramIdCodec

/-! ## `get_best_candidate` -/

/-- Python truthiness of an `Optional[int]` argument (`None` and `0` are
falsy — the guard in `get_best_candidate` is `if og_height and og_width:`). -/
def pyTruthyInt : Option Int → Bool
  | none => false
  | some n => n != 0

/-- A JSON value that must be an integer for arithmetic. -/
def Json.asInt : Json → Except PyError Int
  | .num n => .ok n
  | _ => .error (.typeError "unsupported operand type")

/-- Python `j == n` between a JSON value and an `int` (`False`, never an
error, when `j` is not a number). -/
def Json.eqInt (j : Json) (n : Int) : Bool :=
  match j with
  | .num m => m == n
  | _ => false

/-- `next(filter(lambda img: img["width"] == og_width and img["height"] ==
og_height, candidates))`: first exact-dimension match, scanning in input order
with Python's short-circuit `and`; `StopIteration` when nothing matches. -/
def findExact (og_width og_height : Int) : List Json → Except PyError Json
  | [] => .error .stopIteration
  | img :: rest =>
    match img.index "width" with
    | .error e => .error e
    | .ok jw =>
      if jw.eqInt og_width then
        match img.index "height" with
        | .error e => .error e
        | .ok jh =>
          if jh.eqInt og_height then .ok img else findExact og_width og_height rest
      else findExact og_width og_height rest

/-- The sort key `lambda img: img["width"] * img["height"]`. -/
def candKey (img : Json) : Except PyError Int := do
  let w ← (← img.index "width").asInt
  let h ← (← img.index "height").asInt
  pure (w * h)

/-- The key computation CPython's `sorted` performs up front: one key per
candidate, in input order, failing at the first malformed candidate. -/
def candKeys : List Json → Except PyError (List (Int × Json))
  | [] => .ok []
  | img :: rest => do
    let k ← candKey img
    let ks ← candKeys rest
    pure ((k, img) :: ks)

/-- One insertion step of a stable descending sort on key-tagged values: the
inserted element goes after every element with a strictly larger key and
before the first element whose key is `≤` its own, which preserves input
order among equal keys exactly as Python's stable `sorted(..., reverse=True)`
does. -/
def insertDesc {α : Type} (x : Int × α) : List (Int × α) → List (Int × α)
  | [] => [x]
  | y :: ys => if y.1 > x.1 then y :: insertDesc x ys else x :: y :: ys

/-- Stable descending sort by precomputed key, processing input right to left
so that earlier elements are inserted in front of equal-key later ones:
`sorted(candidates, key=..., reverse=True)`. -/
def sortDescKeyed {α : Type} : List (Int × α) → List (Int × α)
  | [] => []
  | x :: xs => insertDesc x (sortDescKeyed xs)

/-- `get_best_candidate(candidates, og_width=None, og_height=None)`: with a
truthy target width and height, the first exact-dimension match (hard error
when none); otherwise the head of the candidates stably sorted by decreasing
`width * height` (CPython computes every sort key before sorting, so a
malformed candidate anywhere fails the call).  The chosen record's `"url"`
value is returned (as a string; the function is annotated `-> str`). -/
def get_best_candidate (candidates : List Json)
    (og_width : Option Int := none) (og_height : Option Int := none) :
    Except PyError String :=
  if pyTruthyInt og_height && pyTruthyInt og_width then
    match findExact (og_width.getD 0) (og_height.getD 0) candidates with
    | .error e => .error e
    | .ok best => best.index "url" >>= Json.asStr
  else
    match candKeys candidates with
    | .error e => .error e
    | .ok keyed =>
      match (sortDescKeyed keyed).head? with
      | none => .error .indexError
      | some best => best.2.index "url" >>= Json.asStr

/-! ## `Datalama` parsers -/

/-- `MediaType(resource["media_type"])` applied to a raw JSON value: only an
integer member value converts; anything else is the enum's `ValueError`. -/
def mediaTypeOfJson : Json → Except PyError MediaType
  | .num n => MediaType.ofCode n
  | _ => .error (.valueError "not a valid MediaType")

/-- `Datalama.parse_user`: pass a dict which has `user` as a key to make it an
`IgUser`; `user["username"] or f"instagram_user_{user['pk']}"` falls back to
the synthesized placeholder whenever the username value is falsy (empty
string or `None`). -/
def parse_user (data : Json) : Except PyError IgUser := do
  let user ← data.index "user"
  let pk ← user.index "pk"
  let uname ← user.index "username"
  let username ←
    if uname.truthy then uname.asStr
    else pure ("instagram_user_" ++ pk.fstr)
  let avatar ← (← user.index "profile_pic_url").asStr
  pure ⟨pk, username, avatar⟩

mutual

/-- `Datalama.parse_resource_v1`: album resources loop over
`resource["resources"]` with `media += self.parse_resource_v1(..)`;
photo/video resources select one URL via `get_best_candidate`;
`MediaType.NONE` hits the `case _` arm and raises
`TypeError(f"Unknown IG media type ...")`.  `fuel` bounds the album nesting
depth of the recursion. -/
def parse_resource_v1 : Nat → Json → Except PyError (List IgMedia)
  | 0, _ => .error (.typeError "recursion limit")
  | fuel + 1, resource => do
    match ← mediaTypeOfJson (← resource.index "media_type") with
    | .ALBUM => do
      let rs ← (← resource.index "resources").elems
      parse_album_v1 fuel rs
    | .VIDEO => do
      let url ← get_best_candidate (← (← resource.index "video_versions").elems)
      pure [⟨.VIDEO, url⟩]
    | .PHOTO => do
      let url ← get_best_candidate (← (← resource.index "image_versions").elems)
      pure [⟨.PHOTO, url⟩]
    | .NONE =>
      .error (.typeError ("Unknown IG media type " ++ (← resource.index "media_type").fstr))

/-- The `for album_resource in ...: media += self.parse_resource_v1(album_resource)`
loop shared by the v1 and a1 album arms. -/
def parse_album_v1 : Nat → List Json → Except PyError (List IgMedia)
  | _, [] => .ok []
  | fuel, r :: rs => do
    let first ← parse_resource_v1 fuel r
    let rest ← parse_album_v1 fuel rs
    pure (first ++ rest)

end

/-- `Datalama.parse_resource_a1`: like v1 but albums iterate
`resource["carousel_media"]` (recursing through `parse_resource_v1`, as the
source does) and photos read `resource["image_versions2"]["candidates"]`. -/
def parse_resource_a1 (fuel : Nat) (resource : Json) : Except PyError (List IgMedia) := do
  match ← mediaTypeOfJson (← resource.index "media_type") with
  | .ALBUM => do
    let rs ← (← resource.index "carousel_media").elems
    parse_album_v1 fuel rs
  | .VIDEO => do
    let url ← get_best_candidate (← (← resource.index "video_versions").elems)
    pure [⟨.VIDEO, url⟩]
  | .PHOTO => do
    let url ← get_best_candidate
      (← (← (← resource.index "image_versions2").index "candidates").elems)
    pure [⟨.PHOTO, url⟩]
  | .NONE =>
    .error (.typeError ("Unknown IG media type " ++ (← resource.index "media_type").fstr))

/-- `Datalama.get_post_v1` after its `api_request` returned `data`. -/
def get_post_v1_parse (fuel : Nat) (data : Json) : Except PyError IgPost := do
  let user ← parse_user data
  let media ← parse_resource_v1 fuel data
  let ts ← (← data.index "taken_at_ts").asInt
  pure ⟨user, media, ts⟩

/-- The `match MediaType(data["media_type"]):` block of `Datalama.get_story_v1`
building its `media` list: video takes `video_url`, photo takes
`thumbnail_url`, anything else raises `TypeError`. -/
def story_media (data : Json) : Except PyError (List IgMedia) := do
  match ← mediaTypeOfJson (← data.index "media_type") with
  | .VIDEO => do pure [IgMedia.mk .VIDEO (← (← data.index "video_url").asStr)]
  | .PHOTO => do pure [IgMedia.mk .PHOTO (← (← data.index "thumbnail_url").asStr)]
  | _ =>
    .error (.typeError ("Unknown IG media type " ++ (← data.index "media_type").fstr))

/-- `Datalama.get_story_v1` after its `api_request` returned `data`: the
media match, then the timestamp, then the user.  The `taken_at` field is
modelled as an epoch integer (`arrow.get(..).timestamp()` datetime parsing
stays outside the embedding; no claim touches it). -/
def get_story_v1_parse (data : Json) : Except PyError IgPost := do
  let media ← story_media data
  let ts ← (← data.index "taken_at").asInt
  let user ← parse_user data
  pure ⟨user, media, ts⟩

/-- `Datalama.get_post_a1` after its `api_request` returned `data`
(`post = data["items"][0]`). -/
def get_post_a1_parse (fuel : Nat) (data : Json) : Except PyError IgPost := do
  let post ← (← data.index "items").atIdx 0
  let user ← parse_user post
  let media ← parse_resource_a1 fuel post
  let ts ← (← post.index "taken_at").asInt
  pure ⟨user, media, ts⟩

/-! ## `Instagram` (direct client) parsers -/

/-- `Instagram.parse_media`: photo takes `image_versions2.candidates[0]`,
video takes `video_versions[0]`, and **any other** media type (`ALBUM`,
`NONE`) is returned as an `IgMedia` with an empty URL — no error. -/
def parse_media (resource : Json) : Except PyError IgMedia := do
  let resource_media_type ← MediaType.ofCode (← (← resource.index "media_type").toInt)
  match resource_media_type with
  | .PHOTO => do
    let res ← (← (← resource.index "image_versions2").index "candidates").atIdx 0
    pure ⟨.PHOTO, ← (← res.index "url").asStr⟩
  | .VIDEO => do
    let res ← (← resource.index "video_versions").atIdx 0
    pure ⟨.VIDEO, ← (← res.index "url").asStr⟩
  | mt => pure ⟨mt, ""⟩

/-- `Instagram.get_user` after its `v1_api_request` returned `data`: no
username fallback here — the raw `user["username"]` is used as-is. -/
def get_user_parse (data : Json) : Except PyError IgUser := do
  let user ← (← data.index "data").index "user"
  pure ⟨← user.index "id", ← (← user.index "username").asStr,
    ← (← user.index "profile_pic_url").asStr⟩

/-- Python string slicing `s[:n]`: the first `n` characters (code points). -/
def pySlice (s : String) (n : Nat) : String :=
  String.mk (s.toList.take n)

/-- The shortcode-decoding step of `Instagram.get_post`:
`InstagramIdCodec.decode(shortcode[:11])` with `except ValueError:` replaced
by `InstagramError("Not a valid Instagram link")`. -/
def get_post_media_id (shortcode : String) : Except PyError Nat :=
  match InstagramIdCodec.decode (pySlice shortcode 11) with
  | .ok n => .ok n
  | .error (.valueError _) => .error (.instagramError "Not a valid Instagram link")
  | .error e => .error e

/-- The `for resource in resources: media.append(self.parse_media(resource))`
loop of `Instagram.get_post`. -/
def parse_media_list : List Json → Except PyError (List IgMedia)
  | [] => .ok []
  | r :: rs => do
    let m ← parse_media r
    let ms ← parse_media_list rs
    pure (m :: ms)

/-- The parsing tail of `Instagram.get_post` after its `v1_api_request`
returned `data`: albums spread `carousel_media` into `resources`, every
resource goes through `parse_media`. -/
def get_post_parse (data0 : Json) : Except PyError IgPost := do
  let data ← (← data0.index "items").atIdx 0
  let media_type ← MediaType.ofCode (← (← data.index "media_type").toInt)
  let resources ←
    if media_type = .ALBUM then (← data.index "carousel_media").elems
    else pure [data]
  let media ← parse_media_list resources
  let ts ← (← data.index "taken_at").asInt
  let user ← data.index "user"
  pure ⟨⟨← user.index "pk", ← (← user.index "username").asStr,
    ← (← user.index "profile_pic_url").asStr⟩, media, ts⟩

/-- `to_mediatype`: the Python `match` compares the raw `__typename` value
against string literals, so any non-matching (or non-string) value falls to
the `case _` arm and yields `MediaType.NONE` — not an error. -/
def to_mediatype : Json → MediaType
  | .str "GraphVideo" => .VIDEO
  | .str "GraphImage" => .PHOTO
  | .str "GraphSidecar" => .ALBUM
  | _ => .NONE

/-- The `for node in data["edge_sidecar_to_children"]["edges"]:` loop of
`Instagram.get_post_graphql`: each node's kind comes from `to_mediatype`
(so an unknown `__typename` yields a `NONE`-kind entry, appended without
error), and the URL is `display_resources[-1]["src"]`. -/
def parse_graphql_nodes : List Json → Except PyError (List IgMedia)
  | [] => .ok []
  | n :: ns => do
    let node ← n.index "node"
    let node_mediatype := to_mediatype (← node.index "__typename")
    let display_url ← (← (← node.index "display_resources").last).index "src"
    let m := IgMedia.mk node_mediatype (← display_url.asStr)
    let ms ← parse_graphql_nodes ns
    pure (m :: ms)

/-- `Instagram.get_post_graphql` after its `graphql_request` returned data:
sidecars iterate `edge_sidecar_to_children.edges`, each node's kind comes from
`to_mediatype` (so an unknown `__typename` yields a `NONE`-kind entry), and
the URL is `display_resources[-1]["src"]`. -/
def get_post_graphql_parse (data0 : Json) : Except PyError IgPost := do
  let data ← (← data0.index "data").index "shortcode_media"
  let mediatype := to_mediatype (← data.index "__typename")
  let media ←
    if mediatype = .ALBUM then do
      let edges ← (← (← data.index "edge_sidecar_to_children").index "edges").elems
      parse_graphql_nodes edges
    else do
      let display_url ← (← (← data.index "display_resources").last).index "src"
      pure [IgMedia.mk mediatype (← display_url.asStr)]
  let ts ← (← data.index "taken_at_timestamp").asInt
  let user ← data.index "owner"
  pure ⟨⟨← user.index "id", ← (← user.index "username").asStr,
    ← (← user.index "profile_pic_url").asStr⟩, media, ts⟩

/-! ## HTTP clients -/

/-- An HTTP response as the module observes it: the status code, the JSON body
when the response parses as JSON (`body = none` models
`aiohttp.ContentTypeError` from `response.json()`), and the raw text
(`await response.text()`). -/
structure HttpResponse where
  status : Nat
  body : Option Json
  text : String
deriving Repr, Inhabited

/-- `aiohttp`'s `response.ok`: true iff `status < 400`. -/
def responseOk (status : Nat) : Bool := status < 400

/-- A JSON value equal to a given Python string (`Json.str s`); any other
value compares unequal, never erroring — Python `==`. -/
def Json.isStrEq (j : Json) (s : String) : Bool :=
  match j with
  | .str t => t == s
  | _ => false

/-- The error-relevant tail of `Instagram.graphql_request`: a non-JSON body
raises `ExpiredCookie`; a JSON body whose `status` is not `"ok"` raises
`InstagramError(f'[HTTP {response.status}] {data.get("message")}')`. -/
def graphql_request (response : HttpResponse) : Except PyError Json :=
  match response.body with
  | none => .error .expiredCookie
  | some data =>
    match data.index "status" with
    | .error e => .error e
    | .ok s =>
      if s.isStrEq "ok" then .ok data
      else
        .error (.instagramError
          ("[HTTP " ++ toString response.status ++ "] " ++ Json.fstrOpt (data.get "message")))

/-- The error-relevant tail of `Instagram.v1_api_request`: a non-JSON body
raises `ExpiredCookie`; a JSON body whose `status` is not `"ok"` raises
`InstagramError(data.get("message"))`. -/
def v1_api_request (response : HttpResponse) : Except PyError Json :=
  match response.body with
  | none => .error .expiredCookie
  | some data =>
    match data.index "status" with
    | .error e => .error e
    | .ok s =>
      if s.isStrEq "ok" then .ok data
      else .error (.instagramError (Json.fstrOpt (data.get "message")))

/-! ## `Datalama.api_request` and the redis cache -/

/-- One hex digit, upper case, as `urllib.parse.quote` emits. -/
def hexDigit (n : Nat) : Char :=
  "0123456789ABCDEF".toList.getD n '0'

/-- Percent-encoding of one byte. -/
def percentByte (b : UInt8) : String :=
  String.mk ['%', hexDigit (b.toNat / 16), hexDigit (b.toNat % 16)]

/-- `urllib.parse.quote_plus` on one character: ASCII alphanumerics and
`_.-~` pass through, space becomes `+`, everything else is percent-encoded
byte by byte (UTF-8). -/
def quotePlusChar (c : Char) : String :=
  if c.isAlphanum || c = '_' || c = '.' || c = '-' || c = '~' then String.mk [c]
  else if c = ' ' then "+"
  else String.join ((String.mk [c]).toUTF8.toList.map percentByte)

/-- `urllib.parse.quote_plus`. -/
def quote_plus (s : String) : String :=
  String.join (s.toList.map quotePlusChar)

/-- `urllib.parse.urlencode(params)`: `k=v` pairs joined with `&`, **in the
order given** (no sorting), each side `quote_plus`-encoded. -/
def urlencode (params : List (String × String)) : String :=
  String.intercalate "&" (params.map (fun p => quote_plus p.1 ++ "=" ++ quote_plus p.2))

/-- One entry of the redis cache: key, cached JSON and expiry.  `orjson`
serialization is modelled as transparent (`loads(dumps(x)) == x`), so the
cache stores JSON values; `dumps` output is never empty, so bytes-truthiness
of a cached value coincides with key presence. -/
structure RedisEntry where
  key : String
  value : Json
  ttl : Nat
deriving Repr, Inhabited

/-- The redis cache state. -/
abbrev Redis : Type := List RedisEntry

/-- `await self.bot.redis.get(cache_key)`. -/
def redisGet (r : Redis) (k : String) : Option Json :=
  ((List.find? (fun e => e.key == k)) r).map (·.value)

/-- `await self.bot.redis.set(cache_key, value, ttl)`. -/
def redisSet (r : Redis) (k : String) (v : Json) (ttl : Nat) : Redis :=
  (⟨k, v, ttl⟩ : RedisEntry) :: r

/-- Python `data.get(k)` as `api_request` calls it: on a dict the value (or
`None` for an absent key), but an `AttributeError` when the JSON body is not
an object (a list, string, number or `null` has no `.get`). -/
def Json.pyGet (j : Json) (k : String) : Except PyError (Option Json) :=
  match j with
  | .obj fields => .ok ((fields.find? (fun f => f.1 = k)).map (·.2))
  | _ => .error (.attributeError "object has no attribute get")

/-- `x is not None` for the result of a `.get`: false for an absent key and
for a JSON `null` value (`orjson` maps JSON `null` to Python `None`). -/
def optNotNone : Option Json → Bool
  | some .null => false
  | some _ => true
  | none => false

/-- `Datalama.BASE_URL`. -/
def BASE_URL : String := "https://api.datalama.io"

/-- What one `Datalama.api_request` call produces: its result, the cache state
it leaves behind, and how many outbound HTTP calls it made (0 or 1). -/
structure AggregatorResult where
  result : Except PyError Json
  redis : Redis
  outboundCalls : Nat

/-- `Datalama.api_request(endpoint, params)` with the network as an explicit
oracle `net` and the cache as explicit state.  Cache key:
`BASE_URL + endpoint + "?" + urlencode(params)`.  Cache hit returns the
cached JSON with no outbound call.  On a miss the response is fetched; for a
JSON body, `not response.ok or data.get("exc_type") is not None or
data.get("detail") is not None` is evaluated with Python's left-to-right
short-circuit (so `.get` on a non-dict body raises `AttributeError` — from
the condition when the status is ok, from the `raise` line's f-string when it
is not); a false condition caches the body for 86400 seconds and returns it;
a true one raises `InstagramError` with both `.get` values interpolated.  A
non-JSON body (`ContentTypeError`) first runs `response.raise_for_status()`,
which on a non-2xx status raises aiohttp's own error, not `InstagramError`. -/
def api_request (net : String → List (String × String) → HttpResponse)
    (redis : Redis) (endpoint : String) (params : List (String × String)) :
    AggregatorResult :=
  let cache_key := BASE_URL ++ endpoint ++ "?" ++ urlencode params
  match redisGet redis cache_key with
  | some cached => ⟨.ok cached, redis, 0⟩
  | none =>
    let response := net endpoint params
    match response.body with
    | some data =>
      let cond : Except PyError Bool :=
        if !responseOk response.status then .ok true
        else
          match data.pyGet "exc_type" with
          | .error e => .error e
          | .ok exc =>
            if optNotNone exc then .ok true
            else
              match data.pyGet "detail" with
              | .error e => .error e
              | .ok det => .ok (optNotNone det)
      match cond with
      | .error e => ⟨.error e, redis, 1⟩
      | .ok true =>
        match data.pyGet "exc_type" with
        | .error e => ⟨.error e, redis, 1⟩
        | .ok exc =>
          match data.pyGet "detail" with
          | .error e => ⟨.error e, redis, 1⟩
          | .ok det =>
            ⟨.error (.instagramError
              ("ERROR " ++ toString response.status ++ " | "
                ++ Json.fstrOpt exc ++ " | " ++ Json.fstrOpt det)), redis, 1⟩
      | .ok false =>
        ⟨.ok data, redisSet redis cache_key data 86400, 1⟩
    | none =>
      if !responseOk response.status then
        ⟨.error (.clientResponseError response.status), redis, 1⟩
      else
        ⟨.error (.instagramError (toString response.status ++ " | " ++ response.text)),
          redis, 1⟩

/-! ## Spec-side definitions (for refinement-style claims)

These follow the **spec's words**, to be compared against the embedded code. -/

/-- A candidate record as the spec describes it: width, height, url. -/
def mkCandidate : Int × Int × String → Json
  | (w, h, u) => .obj [("width", .num w), ("height", .num h), ("url", .str u)]

/-- Area of a candidate record. -/
def recArea (c : Int × Int × String) : Int := c.1 * c.2.1

/-- From the spec's words (§4.4): "the record maximizing `width * height`
(ties broken by first occurrence in input order)" — the first record whose
area is at least that of every record in the list. -/
def specBestByArea (cands : List (Int × Int × String)) : Option (Int × Int × String) :=
  cands.find? (fun c => cands.all (fun d => decide (recArea d ≤ recArea c)))

/-- Lexicographic `≤` on strings as character lists (Python's string order
for the ASCII keys involved; kept executable for the kernel). -/
def strLeB : List Char → List Char → Bool
  | [], _ => true
  | _ :: _, [] => false
  | a :: as, b :: bs =>
    if a < b then true
    else if b < a then false
    else strLeB as bs

/-- Insertion sort of query parameters by key, ascending (used only to state
the spec's "sorted query parameters" for the cache key). -/
def insertParam (x : String × String) : List (String × String) → List (String × String)
  | [] => [x]
  | y :: ys => if strLeB x.1.toList y.1.toList then x :: y :: ys else y :: insertParam x ys

/-- Sorting of query parameters by key (spec side). -/
def sortParams : List (String × String) → List (String × String)
  | [] => []
  | x :: xs => insertParam x (sortParams xs)

/-- From the spec's words: "the cache key is the target URL plus the sorted
query parameters". -/
def specSortedCacheKey (endpoint : String) (params : List (String × String)) : String :=
  BASE_URL ++ endpoint ++ "?" ++ urlencode (sortParams params)

/-- First maximum by an integer key, ties to the earlier element (ghost
companion of `sortDescKeyed` used in the proofs). -/
def firstMaxBy {α : Type} (key : α → Int) : List α → Option α
  | [] => none
  | x :: xs =>
    match firstMaxBy key xs with
    | none => some x
    | some m => if key m > key x then some m else some x

/-- Whether a `PyError` is the module's own `InstagramError` kind. -/
def PyError.isInstagramError : PyError → Bool
  | .instagramError _ => true
  | _ => false

deriving instance DecidableEq for Except

/-! # Theorems -/

namespace InstagramIdCodec

theorem strIndex_alphaChar : ∀ d : Fin 64,
    strIndex ENCODING_CHARS.toList (alphaChar d.val) = some d.val := by decide

theorem digitOf_alphaChar {d : Nat} (hd : d < 64) : digitOf (alphaChar d) = d := by
  have h := strIndex_alphaChar ⟨d, hd⟩
  simp only [Fin.val_mk] at h
  simp only [digitOf, h, Option.getD_some]

theorem strIndex_isSome_alphaChar {d : Nat} (hd : d < 64) :
    (strIndex ENCODING_CHARS.toList (alphaChar d)).isSome := by
  have h := strIndex_alphaChar ⟨d, hd⟩
  simp only [Fin.val_mk] at h
  simp only [h, Option.isSome_some]

theorem strIndex_eq_zero {a c : Char} {as : List Char}
    (h : strIndex (a :: as) c = some 0) : c = a := by
  by_cases hac : a = c
  · exact hac.symm
  · simp only [strIndex, if_neg hac] at h
    cases hix : strIndex as c with
    | none => rw [hix] at h; simp at h
    | some k => rw [hix] at h; simp at h

theorem strIndex_getD : ∀ (l : List Char) (c : Char) (k : Nat),
    strIndex l c = some k → l.getD k 'A' = c := by
  intro l
  induction l with
  | nil => intro c k h; simp [strIndex] at h
  | cons a as ih =>
    intro c k h
    by_cases hac : a = c
    · simp only [strIndex, if_pos hac] at h
      cases h; simpa using hac
    · simp only [strIndex, if_neg hac] at h
      cases hix : strIndex as c with
      | none => rw [hix] at h; simp at h
      | some k' =>
        rw [hix] at h
        simp only [Option.map_some'] at h
        cases h
        simpa using ih c k' hix

theorem strIndex_lt_length : ∀ (l : List Char) (c : Char) (k : Nat),
    strIndex l c = some k → k < l.length := by
  intro l
  induction l with
  | nil => intro c k h; simp [strIndex] at h
  | cons a as ih =>
    intro c k h
    by_cases hac : a = c
    · simp only [strIndex, if_pos hac] at h
      cases h; simp
    · simp only [strIndex, if_neg hac] at h
      cases hix : strIndex as c with
      | none => rw [hix] at h; simp at h
      | some k' =>
        rw [hix] at h
        simp only [Option.map_some'] at h
        cases h
        have := ih c k' hix
        simpa using Nat.succ_lt_succ this

theorem decodeLoop_ok : ∀ (cs : List Char) (idx num : Nat),
    (∀ c ∈ cs, (strIndex ENCODING_CHARS.toList c).isSome) →
    decodeLoop (idx + cs.length) cs idx num = .ok (num + msbVal (cs.map digitOf)) := by
  intro cs
  induction cs with
  | nil => intro idx num _; simp [decodeLoop, msbVal]
  | cons c cs ih =>
    intro idx num h
    have hc : (strIndex ENCODING_CHARS.toList c).isSome := h c (by simp)
    obtain ⟨d, hd⟩ := Option.isSome_iff_exists.mp hc
    have hdig : digitOf c = d := by simp only [digitOf, hd, Option.getD_some]
    have hpow : idx + (c :: cs).length - (idx + 1) = cs.length := by
      simp only [List.length_cons]; omega
    have hlen : idx + (c :: cs).length = (idx + 1) + cs.length := by
      simp only [List.length_cons]; omega
    simp only [decodeLoop, hd, hpow]
    rw [hlen]
    rw [ih (idx + 1) (num + d * 64 ^ cs.length) (fun x hx => h x (by simp [hx]))]
    simp only [List.map_cons, msbVal, List.length_map, hdig]
    congr 1
    omega

theorem decode_ok (s : String)
    (h : ∀ c ∈ s.toList, (strIndex ENCODING_CHARS.toList c).isSome) :
    decode s = .ok (msbVal (s.toList.map digitOf)) := by
  have h2 := decodeLoop_ok s.toList 0 0 h
  simp only [Nat.zero_add] at h2
  rw [decode, show s.length = s.toList.length from rfl, h2]

theorem msbVal_append (xs : List Nat) (d : Nat) :
    msbVal (xs ++ [d]) = 64 * msbVal xs + d := by
  induction xs with
  | nil => simp [msbVal]
  | cons x xs ih =>
    rw [List.cons_append, msbVal, msbVal, ih, List.length_append]
    simp only [List.length_cons, List.length_nil]
    ring

theorem natDigits_lt (num : Nat) : ∀ d ∈ natDigits num, d < 64 := by
  induction num using Nat.strongRecOn with
  | _ n ih =>
    intro d hd
    rw [natDigits] at hd
    by_cases hn : n = 0
    · simp [hn] at hd
    · rw [dif_neg hn] at hd
      rcases List.mem_cons.mp hd with h | h
      · subst h; exact Nat.mod_lt _ (by norm_num)
      · exact ih (n / 64) (Nat.div_lt_self (Nat.pos_of_ne_zero hn) (by norm_num)) d h

theorem encodeDigits_eq (num : Nat) : encodeDigits num = (natDigits num).map alphaChar := by
  induction num using Nat.strongRecOn with
  | _ n ih =>
    rw [natDigits, encodeDigits]
    by_cases hn : n = 0
    · simp [hn]
    · rw [dif_neg hn, dif_neg hn, List.map_cons,
        ih (n / 64) (Nat.div_lt_self (Nat.pos_of_ne_zero hn) (by norm_num))]

theorem msbVal_reverse_natDigits (num : Nat) : msbVal (natDigits num).reverse = num := by
  induction num using Nat.strongRecOn with
  | _ n ih =>
    rw [natDigits]
    by_cases hn : n = 0
    · simp [hn, msbVal]
    · rw [dif_neg hn]
      simp only [List.reverse_cons]
      rw [msbVal_append, ih (n / 64) (Nat.div_lt_self (Nat.pos_of_ne_zero hn) (by norm_num))]
      omega

theorem msbVal_pos : ∀ (ds : List Nat), ds ≠ [] → ds.head? ≠ some 0 → 0 < msbVal ds := by
  intro ds hne hhead
  cases ds with
  | nil => exact absurd rfl hne
  | cons d t =>
    have hd : d ≠ 0 := by
      intro h; exact hhead (by simp [h])
    have : 0 < d * 64 ^ t.length :=
      Nat.mul_pos (Nat.pos_of_ne_zero hd) (Nat.pos_pow_of_pos _ (by norm_num))
    simpa [msbVal] using Nat.lt_of_lt_of_le this (Nat.le_add_right _ _)

theorem natDigits_msbVal : ∀ (ds : List Nat), ds ≠ [] → ds.head? ≠ some 0 →
    (∀ d ∈ ds, d < 64) → natDigits (msbVal ds) = ds.reverse := by
  intro ds
  induction ds using List.reverseRecOn with
  | nil => intro h; exact absurd rfl h
  | append_singleton xs d ih =>
    intro _ hhead hlt
    have hd64 : d < 64 := hlt d (by simp)
    cases xs with
    | nil =>
      have hd : d ≠ 0 := by
        intro h; exact hhead (by simp [h])
      simp only [List.nil_append, msbVal, List.length_nil, pow_zero, mul_one,
        Nat.add_zero, List.reverse_singleton]
      rw [natDigits, dif_neg hd, Nat.mod_eq_of_lt hd64, Nat.div_eq_of_lt hd64,
        natDigits]
      simp
    | cons x xs' =>
      have hxs : (x :: xs') ≠ ([] : List Nat) := by simp
      have hhead' : (x :: xs').head? ≠ some 0 := by
        simpa using hhead
      have hlt' : ∀ a ∈ x :: xs', a < 64 := fun a ha => hlt a (List.mem_append_left _ ha)
      have hm : 0 < msbVal (x :: xs') := msbVal_pos _ hxs hhead'
      rw [msbVal_append]
      have hne : 64 * msbVal (x :: xs') + d ≠ 0 := by positivity
      rw [natDigits, dif_neg hne]
      have hmod : (64 * msbVal (x :: xs') + d) % 64 = d := by
        rw [Nat.mul_add_mod]; exact Nat.mod_eq_of_lt hd64
      have hdiv : (64 * msbVal (x :: xs') + d) / 64 = msbVal (x :: xs') := by
        rw [Nat.mul_add_div (by norm_num), Nat.div_eq_of_lt hd64]
        simp
      rw [hmod, hdiv, ih hxs hhead' hlt']
      simp

theorem decodeLoop_error : ∀ (cs : List Char) (strlen idx num : Nat) (e : PyError),
    decodeLoop strlen cs idx num = .error e → ∃ m, e = .valueError m := by
  intro cs
  induction cs with
  | nil => intro strlen idx num e h; simp [decodeLoop] at h
  | cons c cs ih =>
    intro strlen idx num e h
    rw [decodeLoop] at h
    cases hix : strIndex ENCODING_CHARS.toList c with
    | none =>
      rw [hix] at h
      exact ⟨"substring not found", by cases h; rfl⟩
    | some d =>
      rw [hix] at h
      exact ih strlen (idx + 1) _ e h

end InstagramIdCodec

open InstagramIdCodec in
/-- **C3.** For every non-negative integer `n`, `decode(encode(n)) == n`,
where `encode` converts `n` to the fixed 64-symbol alphabet most-significant
digit first, and `encode(0)` equals the alphabet's first character. -/
theorem C3_codec_roundtrip :
    (∀ n : Nat, decode (encode n) = .ok n) ∧ encode 0 = "A" := by
  constructor
  · intro n
    by_cases hn : n = 0
    · subst hn; rfl
    · rw [encode, if_neg hn, encodeDigits_eq]
      have hmem : ∀ c ∈ ((natDigits n).map alphaChar).reverse,
          (strIndex ENCODING_CHARS.toList c).isSome := by
        intro c hc
        rw [List.mem_reverse, List.mem_map] at hc
        obtain ⟨d, hd, rfl⟩ := hc
        exact strIndex_isSome_alphaChar (natDigits_lt n d hd)
      have h1 : (String.mk ((natDigits n).map alphaChar).reverse).toList
          = ((natDigits n).map alphaChar).reverse := rfl
      rw [decode_ok _ (by rw [h1]; exact hmem), h1]
      rw [← List.map_reverse, List.map_map]
      have h2 : ∀ d ∈ (natDigits n).reverse, (digitOf ∘ alphaChar) d = d := by
        intro d hd
        rw [List.mem_reverse] at hd
        exact digitOf_alphaChar (natDigits_lt n d hd)
      rw [List.map_congr_left h2, List.map_id', msbVal_reverse_natDigits]
  · decide

open InstagramIdCodec in
/-- **C10.** `encode` is a left inverse of `decode` only on canonical strings:
for every non-empty alphabet string whose first character is not
`alphabet[0] = 'A'`, `encode (decode s) = s`; but `decode` is not injective on
arbitrary alphabet strings — `decode "" = 0` and prepending `'A'` leaves the
decoded value unchanged, so distinct shortcode strings share a media id. -/
theorem C10_decode_injective_only_on_canonical :
    (∀ s : String, s.toList ≠ [] →
      (∀ c ∈ s.toList, (strIndex ENCODING_CHARS.toList c).isSome) →
      s.toList.head? ≠ some 'A' →
      ∃ n, decode s = .ok n ∧ encode n = s) ∧
    decode "" = .ok 0 ∧
    (∀ s : String, (∀ c ∈ s.toList, (strIndex ENCODING_CHARS.toList c).isSome) →
      decode (String.mk ('A' :: s.toList)) = decode s) ∧
    ("AB" ≠ "B" ∧ decode "AB" = decode "B") := by
  refine ⟨?_, by rfl, ?_, by decide, by rfl⟩
  · intro s hne hmem hhead
    refine ⟨msbVal (s.toList.map digitOf), decode_ok s hmem, ?_⟩
    obtain ⟨c, cs, hcons⟩ := List.exists_cons_of_ne_nil hne
    have hcA : c ≠ 'A' := by
      intro h; rw [hcons, h] at hhead; exact hhead rfl
    have hcSome : (strIndex ENCODING_CHARS.toList c).isSome :=
      hmem c (by rw [hcons]; simp)
    obtain ⟨k, hk⟩ := Option.isSome_iff_exists.mp hcSome
    have hk0 : k ≠ 0 := by
      intro h
      subst h
      apply hcA
      cases hL : ENCODING_CHARS.toList with
      | nil => rw [hL] at hk; simp [strIndex] at hk
      | cons a as =>
        rw [hL] at hk
        have ha := strIndex_eq_zero hk
        have : ENCODING_CHARS.toList.head? = some a := by rw [hL]; rfl
        have hA : ENCODING_CHARS.toList.head? = some 'A' := by decide
        rw [hA] at this
        cases this
        exact ha
    have hdigitc : digitOf c = k := by simp only [digitOf, hk, Option.getD_some]
    set ds := s.toList.map digitOf with hds
    have hdsne : ds ≠ [] := by
      rw [hds, hcons]; simp
    have hdshead : ds.head? ≠ some 0 := by
      rw [hds, hcons]
      simp only [List.map_cons, List.head?_cons, hdigitc]
      intro h
      cases h
      exact hk0 rfl
    have hdslt : ∀ d ∈ ds, d < 64 := by
      intro d hd
      rw [hds, List.mem_map] at hd
      obtain ⟨x, hx, rfl⟩ := hd
      obtain ⟨k', hk'⟩ := Option.isSome_iff_exists.mp (hmem x hx)
      have := strIndex_lt_length _ _ _ hk'
      have hlen : ENCODING_CHARS.toList.length = 64 := by decide
      rw [hlen] at this
      simp only [digitOf, hk', Option.getD_some]
      exact this
    have hpos : 0 < msbVal ds := msbVal_pos ds hdsne hdshead
    rw [encode, if_neg (Nat.pos_iff_ne_zero.mp hpos), encodeDigits_eq,
      natDigits_msbVal ds hdsne hdshead hdslt]
    rw [← List.map_reverse, List.reverse_reverse, hds, List.map_map]
    have : ∀ x ∈ s.toList, (alphaChar ∘ digitOf) x = x := by
      intro x hx
      obtain ⟨k', hk'⟩ := Option.isSome_iff_exists.mp (hmem x hx)
      have := strIndex_getD _ _ _ hk'
      simp only [Function.comp_apply, digitOf, hk', Option.getD_some]
      exact this
    rw [List.map_congr_left this, List.map_id']
    rfl
  · intro s hmem
    have hmem' : ∀ c ∈ (String.mk ('A' :: s.toList)).toList,
        (strIndex ENCODING_CHARS.toList c).isSome := by
      intro c hc
      have hc' : c ∈ 'A' :: s.toList := hc
      rcases List.mem_cons.mp hc' with h | h
      · subst h; decide
      · exact hmem c h
    rw [decode_ok _ hmem', decode_ok s hmem]
    have h1 : (String.mk ('A' :: s.toList)).toList = 'A' :: s.toList := rfl
    rw [h1, List.map_cons]
    have hA : digitOf 'A' = 0 := by decide
    simp [msbVal, hA]

/-- Witness for C10 at the concrete canonical shortcode `"Bx9"`. -/
theorem C10_witness :
    ∃ n, InstagramIdCodec.decode "Bx9" = .ok n ∧ InstagramIdCodec.encode n = "Bx9" := by
  exact C10_decode_injective_only_on_canonical.1 "Bx9" (by decide) (by decide) (by decide)

open InstagramIdCodec in
/-- **C9.** Only the first 11 characters of a shortcode are used by
`Instagram.get_post` for decoding to the numeric media id, and a decoding
failure (a character outside the codec alphabet) is surfaced as
`InstagramError("Not a valid Instagram link")` rather than the lower-level
codec `ValueError`. -/
theorem C9_get_post_shortcode_decoding :
    (∀ s t : String, s.toList.take 11 = t.toList.take 11 →
      get_post_media_id s = get_post_media_id t) ∧
    (∀ (s : String) (e : PyError), decode (pySlice s 11) = .error e →
      get_post_media_id s = .error (.instagramError "Not a valid Instagram link")) := by
  constructor
  · intro s t h
    rw [get_post_media_id, get_post_media_id, pySlice, pySlice, h]
  · intro s e h
    obtain ⟨m, rfl⟩ : ∃ m, e = PyError.valueError m := by
      rw [decode] at h
      exact decodeLoop_error _ _ _ _ _ h
    rw [get_post_media_id, h]

/-- Witness for C9: a prefix-sharing pair and a malformed shortcode. -/
theorem C9_witness :
    get_post_media_id "ABCDEFGHIJKLMNO" = get_post_media_id "ABCDEFGHIJKxyz" ∧
    get_post_media_id "!notalink" = .error (.instagramError "Not a valid Instagram link") := by
  constructor
  · exact C9_get_post_shortcode_decoding.1 "ABCDEFGHIJKLMNO" "ABCDEFGHIJKxyz" (by decide)
  · exact C9_get_post_shortcode_decoding.2 "!notalink"
      (.valueError "substring not found") (by decide)

/-! ## Candidate selection (`get_best_candidate`) -/

theorem head_insertDesc {α : Type} (x : Int × α) (l : List (Int × α)) :
    (insertDesc x l).head? =
      some (match l.head? with
            | none => x
            | some y => if y.1 > x.1 then y else x) := by
  cases l with
  | nil => rfl
  | cons y ys =>
    simp only [insertDesc, List.head?_cons]
    split <;> simp

theorem head_sortDescKeyed {α : Type} (l : List (Int × α)) :
    (sortDescKeyed l).head? = firstMaxBy Prod.fst l := by
  induction l with
  | nil => rfl
  | cons x xs ih =>
    rw [sortDescKeyed, head_insertDesc, firstMaxBy, ← ih]
    cases h : (sortDescKeyed xs).head? with
    | none => simp
    | some y =>
      simp only
      split <;> rfl

theorem firstMaxBy_eq_none_iff {α : Type} (key : α → Int) (l : List α) :
    firstMaxBy key l = none ↔ l = [] := by
  cases l with
  | nil => simp [firstMaxBy]
  | cons x xs =>
    cases hx : firstMaxBy key xs with
    | none => simp [firstMaxBy, hx]
    | some m =>
      by_cases hgt : key m > key x
      · simp [firstMaxBy, hx, if_pos hgt]
      · simp [firstMaxBy, hx, if_neg hgt]

theorem firstMaxBy_mem {α : Type} (key : α → Int) :
    ∀ (l : List α) (m : α), firstMaxBy key l = some m → m ∈ l := by
  intro l
  induction l with
  | nil => intro m h; simp [firstMaxBy] at h
  | cons x xs ih =>
    intro m h
    cases hx : firstMaxBy key xs with
    | none =>
      simp only [firstMaxBy, hx] at h
      cases h; simp
    | some m' =>
      simp only [firstMaxBy, hx] at h
      by_cases hgt : key m' > key x
      · rw [if_pos hgt] at h
        cases h
        exact List.mem_cons_of_mem _ (ih _ hx)
      · rw [if_neg hgt] at h
        cases h; simp

theorem firstMaxBy_max {α : Type} (key : α → Int) :
    ∀ (l : List α) (m : α), firstMaxBy key l = some m → ∀ y ∈ l, key y ≤ key m := by
  intro l
  induction l with
  | nil => intro m h; simp [firstMaxBy] at h
  | cons x xs ih =>
    intro m h y hy
    cases hx : firstMaxBy key xs with
    | none =>
      simp only [firstMaxBy, hx] at h
      cases h
      have hxs : xs = [] := (firstMaxBy_eq_none_iff key xs).mp hx
      subst hxs
      rcases List.mem_cons.mp hy with rfl | hmem
      · exact le_refl _
      · simp at hmem
    | some m' =>
      simp only [firstMaxBy, hx] at h
      by_cases hgt : key m' > key x
      · rw [if_pos hgt] at h
        cases h
        rcases List.mem_cons.mp hy with rfl | hmem
        · omega
        · exact ih _ hx y hmem
      · rw [if_neg hgt] at h
        cases h
        rcases List.mem_cons.mp hy with rfl | hmem
        · exact le_refl _
        · have := ih m' hx y hmem
          omega

theorem find?_congr_mem {α : Type} (p q : α → Bool) :
    ∀ (l : List α), (∀ x ∈ l, p x = q x) → l.find? p = l.find? q := by
  intro l
  induction l with
  | nil => intro _; rfl
  | cons x xs ih =>
    intro h
    rw [List.find?_cons, List.find?_cons, h x (by simp),
      ih (fun y hy => h y (by simp [hy]))]

theorem firstMaxBy_eq_find {α : Type} (key : α → Int) :
    ∀ (l : List α),
      firstMaxBy key l = l.find? (fun c => l.all (fun d => decide (key d ≤ key c))) := by
  intro l
  induction l with
  | nil => rfl
  | cons x xs ih =>
    cases hx : firstMaxBy key xs with
    | none =>
      have hxs : xs = [] := (firstMaxBy_eq_none_iff key xs).mp hx
      subst hxs
      rw [List.find?_cons_of_pos _ (by simp)]
      simp [firstMaxBy]
    | some m =>
      have hmem := firstMaxBy_mem key xs m hx
      have hmax := firstMaxBy_max key xs m hx
      by_cases hgt : key m > key x
      · simp only [firstMaxBy, hx, if_pos hgt]
        have hpx : ((x :: xs).all (fun d => decide (key d ≤ key x))) = false := by
          rw [List.all_eq_false]
          exact ⟨m, by simp [hmem], by simp; omega⟩
        rw [List.find?_cons_of_neg _ (by simp [hpx])]
        have hcongr : ∀ c ∈ xs,
            ((x :: xs).all (fun d => decide (key d ≤ key c)))
              = (xs.all (fun d => decide (key d ≤ key c))) := by
          intro c hc
          cases hq : xs.all (fun d => decide (key d ≤ key c)) with
          | false =>
            rw [List.all_eq_false] at hq
            obtain ⟨d, hd, hdc⟩ := hq
            rw [List.all_eq_false]
            exact ⟨d, by simp [hd], hdc⟩
          | true =>
            rw [List.all_eq_true] at hq
            have hmc : key m ≤ key c := by simpa using hq m hmem
            rw [List.all_eq_true]
            intro d hd
            rcases List.mem_cons.mp hd with rfl | hdm
            · simp; omega
            · exact hq d hdm
        rw [find?_congr_mem _ _ xs hcongr, ← ih, hx]
      · simp only [firstMaxBy, hx, if_neg hgt]
        have hpx : ((x :: xs).all (fun d => decide (key d ≤ key x))) = true := by
          rw [List.all_eq_true]
          intro d hd
          rcases List.mem_cons.mp hd with rfl | hdm
          · simp
          · have := hmax d hdm; simp; omega
        exact (@List.find?_cons_of_pos _
          (fun c => (x :: xs).all fun d => decide (key d ≤ key c)) x xs hpx).symm

theorem firstMaxBy_map {α β : Type} (key : β → Int) (f : α → β) :
    ∀ (l : List α),
      firstMaxBy key (l.map f) = (firstMaxBy (fun a => key (f a)) l).map f := by
  intro l
  induction l with
  | nil => rfl
  | cons x xs ih =>
    rw [List.map_cons, firstMaxBy, firstMaxBy, ih]
    cases hx : firstMaxBy (fun a => key (f a)) xs with
    | none => simp
    | some m =>
      simp only [Option.map_some']
      split <;> simp

theorem candKeys_map (cs : List (Int × Int × String)) :
    candKeys (cs.map mkCandidate) = .ok (cs.map (fun c => (recArea c, mkCandidate c))) := by
  induction cs with
  | nil => rfl
  | cons c cs ih =>
    obtain ⟨w, h, u⟩ := c
    simp only [List.map_cons, candKeys, ih]
    rfl

theorem findExact_map (w h : Int) :
    ∀ (cs : List (Int × Int × String)),
      findExact w h (cs.map mkCandidate) =
        match cs.find? (fun c => c.1 == w && c.2.1 == h) with
        | some c => .ok (mkCandidate c)
        | none => .error .stopIteration := by
  intro cs
  induction cs with
  | nil => rfl
  | cons c cs ih =>
    obtain ⟨cw, ch, cu⟩ := c
    rw [List.map_cons, findExact]
    simp only [show (mkCandidate (cw, ch, cu)).index "width" = .ok (.num cw) from rfl,
      show (mkCandidate (cw, ch, cu)).index "height" = .ok (.num ch) from rfl]
    by_cases hw : cw = w
    · subst hw
      by_cases hh : ch = h
      · subst hh
        rw [if_pos (by simp [Json.eqInt]), if_pos (by simp [Json.eqInt])]
        rw [List.find?_cons_of_pos _ (by simp)]
      · rw [if_pos (by simp [Json.eqInt]), if_neg (by simp [Json.eqInt, hh]), ih]
        rw [List.find?_cons_of_neg _ (by simp [hh])]
    · rw [if_neg (by simp [Json.eqInt, hw]), ih]
      rw [List.find?_cons_of_neg _ (by simp [hw])]

/-- **C4.** For every candidate list of `{width, height, url}` records: with
both an exact (truthy) target width and height supplied,
`get_best_candidate` returns the URL of the first record whose dimensions
match exactly and fails (`StopIteration` from `next`) when none matches; when
the target is not fully supplied it returns the URL of a record with maximal
`width * height`, the first in input order among ties. -/
theorem C4_get_best_candidate_selection :
    (∀ (cs : List (Int × Int × String)) (w h : Int), w ≠ 0 → h ≠ 0 →
      get_best_candidate (cs.map mkCandidate) (some w) (some h) =
        match cs.find? (fun c => c.1 == w && c.2.1 == h) with
        | some c => .ok c.2.2
        | none => .error .stopIteration) ∧
    (∀ (cs : List (Int × Int × String)) (ow oh : Option Int), ow = none ∨ oh = none →
      get_best_candidate (cs.map mkCandidate) ow oh =
        match specBestByArea cs with
        | some c => .ok c.2.2
        | none => .error .indexError) := by
  constructor
  · intro cs w h hw hh
    rw [get_best_candidate, if_pos (by simp [pyTruthyInt, hw, hh])]
    simp only [Option.getD_some]
    rw [findExact_map]
    cases hfind : cs.find? (fun c => c.1 == w && c.2.1 == h) with
    | none => rfl
    | some c =>
      obtain ⟨cw, ch, cu⟩ := c
      rfl
  · intro cs ow oh hor
    have hguard : (pyTruthyInt oh && pyTruthyInt ow) = false := by
      rcases hor with rfl | rfl <;> simp [pyTruthyInt]
    rw [get_best_candidate, if_neg (by simp [hguard])]
    simp only [candKeys_map]
    rw [head_sortDescKeyed]
    have hfm : firstMaxBy Prod.fst (cs.map (fun c => (recArea c, mkCandidate c)))
        = (firstMaxBy recArea cs).map (fun c => (recArea c, mkCandidate c)) := by
      rw [firstMaxBy_map]
    rw [hfm,
      show specBestByArea cs = firstMaxBy recArea cs from (firstMaxBy_eq_find recArea cs).symm]
    cases hfm2 : firstMaxBy recArea cs with
    | none => rfl
    | some m =>
      obtain ⟨mw, mh, mu⟩ := m
      rfl

/-- Witness for C4 at the spec's own test vector
`[(100,100,"a"), (200,200,"b"), (50,50,"c")]`. -/
theorem C4_witness :
    get_best_candidate
      ([(100, 100, "a"), (200, 200, "b"), (50, 50, "c")].map mkCandidate)
      (some 100) (some 100) = .ok "a" ∧
    get_best_candidate
      ([(100, 100, "a"), (200, 200, "b"), (50, 50, "c")].map mkCandidate)
      none none = .ok "b" ∧
    get_best_candidate
      ([(100, 100, "a"), (200, 200, "b"), (50, 50, "c")].map mkCandidate)
      (some 7) (some 7) = .error .stopIteration := by
  refine ⟨?_, ?_, ?_⟩
  · have h := C4_get_best_candidate_selection.1
      [(100, 100, "a"), (200, 200, "b"), (50, 50, "c")] 100 100 (by decide) (by decide)
    rw [h]; rfl
  · have h := C4_get_best_candidate_selection.2
      [(100, 100, "a"), (200, 200, "b"), (50, 50, "c")] none none (Or.inl rfl)
    rw [h]; rfl
  · have h := C4_get_best_candidate_selection.1
      [(100, 100, "a"), (200, 200, "b"), (50, 50, "c")] 7 7 (by decide) (by decide)
    rw [h]; rfl

/-! ## Monad-reduction helpers for `Except` -/

theorem bindE_ok {α β : Type} (a : α) (f : α → Except PyError β) :
    (Except.ok a >>= f) = f a := rfl

theorem bindE_error {α β : Type} (e : PyError) (f : α → Except PyError β) :
    ((Except.error e : Except PyError α) >>= f) = .error e := rfl

theorem pureE {α : Type} (a : α) : (pure a : Except PyError α) = .ok a := rfl

/-! ## Username fallback (C5) -/

/-- **C5 counterexample.** `Instagram.get_user` is one of the module's
user-parsing operations (the claim's own sources include it), yet on a user
JSON with an empty username and id 123 it returns the empty username
unchanged, not the synthesized placeholder. -/
theorem C5_counterexample :
    (get_user_parse (.obj [("data", .obj [("user", .obj [("id", .num 123),
        ("username", .str ""), ("profile_pic_url", .str "p")])])])).map IgUser.username
      = .ok "" ∧ ("" : String) ≠ "instagram_user_123" :=
  ⟨rfl, by decide⟩

/-- **C5 (amended).** Only the aggregator's `Datalama.parse_user` (used by
`get_post_v1`, `get_story_v1`, `get_post_a1`) synthesizes the
`instagram_user_<id>` placeholder when the username field is the empty
string; the direct client's `Instagram.get_user` returns the empty username
as-is. -/
theorem C5_username_fallback :
    (∀ (data user pk : Json) (avs : String),
      data.index "user" = .ok user →
      user.index "pk" = .ok pk →
      user.index "username" = .ok (.str "") →
      user.index "profile_pic_url" = .ok (.str avs) →
      parse_user data = .ok ⟨pk, "instagram_user_" ++ pk.fstr, avs⟩) ∧
    (∀ (data inner user uid : Json) (avs : String),
      data.index "data" = .ok inner →
      inner.index "user" = .ok user →
      user.index "id" = .ok uid →
      user.index "username" = .ok (.str "") →
      user.index "profile_pic_url" = .ok (.str avs) →
      get_user_parse data = .ok ⟨uid, "", avs⟩) := by
  constructor
  · intro data user pk avs h1 h2 h3 h4
    simp only [parse_user, h1, h2, h3, h4, bindE_ok, Json.truthy, Json.asStr]
    rfl
  · intro data inner user uid avs h1 h2 h3 h4 h5
    simp only [get_user_parse, h1, h2, h3, h4, h5, bindE_ok, Json.asStr]
    rfl

/-- Witness for C5 (amended): id 123 with an empty username parses, through
`Datalama.parse_user`, to the placeholder `instagram_user_123`. -/
theorem C5_witness :
    parse_user (.obj [("user", .obj [("pk", .num 123), ("username", .str ""),
        ("profile_pic_url", .str "p")])])
      = .ok ⟨.num 123, "instagram_user_123", "p"⟩ := by
  have h := C5_username_fallback.1
    (.obj [("user", .obj [("pk", .num 123), ("username", .str ""),
      ("profile_pic_url", .str "p")])])
    (.obj [("pk", .num 123), ("username", .str ""), ("profile_pic_url", .str "p")])
    (.num 123) "p" rfl rfl rfl rfl
  exact h

/-! ## Media-kind invariants of the parsers (C1) -/

theorem MediaType.ofCode_unknown (n : Int) (h1 : n ≠ 1) (h2 : n ≠ 2) (h8 : n ≠ 8)
    (h0 : n ≠ 0) :
    MediaType.ofCode n = .error (.valueError "not a valid MediaType") := by
  unfold MediaType.ofCode
  split <;> simp_all

/-- Every media entry a successful `parse_resource_v1` produces is a photo or
a video. -/
theorem parse_resource_v1_kinds : ∀ (fuel : Nat) (j : Json) (ms : List IgMedia),
    parse_resource_v1 fuel j = .ok ms →
    ∀ m ∈ ms, m.media_type = .PHOTO ∨ m.media_type = .VIDEO := by
  intro fuel
  induction fuel with
  | zero =>
    intro j ms h
    simp [parse_resource_v1] at h
  | succ fuel ih =>
    have halbum : ∀ (rs : List Json) (ms : List IgMedia),
        parse_album_v1 fuel rs = .ok ms →
        ∀ m ∈ ms, m.media_type = .PHOTO ∨ m.media_type = .VIDEO := by
      intro rs
      induction rs with
      | nil =>
        intro ms h m hm
        simp only [parse_album_v1] at h
        cases h
        simp at hm
      | cons r rs ihr =>
        intro ms h m hm
        simp only [parse_album_v1] at h
        cases hr : parse_resource_v1 fuel r with
        | error e => rw [hr, bindE_error] at h; exact absurd h (by simp)
        | ok first =>
          rw [hr, bindE_ok] at h
          cases hrest : parse_album_v1 fuel rs with
          | error e => rw [hrest, bindE_error] at h; exact absurd h (by simp)
          | ok rest =>
            rw [hrest, bindE_ok, pureE] at h
            cases h
            rcases List.mem_append.mp hm with hmem | hmem
            · exact ih r first hr m hmem
            · exact ihr rest hrest m hmem
    intro j ms h m hm
    rw [parse_resource_v1] at h
    cases hv : j.index "media_type" with
    | error e => rw [hv, bindE_error] at h; exact absurd h (by simp)
    | ok v =>
      rw [hv, bindE_ok] at h
      cases hmt : mediaTypeOfJson v with
      | error e => rw [hmt, bindE_error] at h; exact absurd h (by simp)
      | ok mt =>
        rw [hmt, bindE_ok] at h
        cases mt with
        | ALBUM =>
          cases hr : j.index "resources" with
          | error e => rw [hr, bindE_error] at h; exact absurd h (by simp)
          | ok rj =>
            rw [hr, bindE_ok] at h
            cases hre : rj.elems with
            | error e => rw [hre, bindE_error] at h; exact absurd h (by simp)
            | ok rs =>
              rw [hre, bindE_ok] at h
              exact halbum rs ms h m hm
        | VIDEO =>
          cases hr : j.index "video_versions" with
          | error e => rw [hr, bindE_error] at h; exact absurd h (by simp)
          | ok vj =>
            rw [hr, bindE_ok] at h
            cases hve : vj.elems with
            | error e => rw [hve, bindE_error] at h; exact absurd h (by simp)
            | ok vv =>
              rw [hve, bindE_ok] at h
              cases hbc : get_best_candidate vv with
              | error e => rw [hbc, bindE_error] at h; exact absurd h (by simp)
              | ok url =>
                rw [hbc, bindE_ok, pureE] at h
                cases h
                rcases List.mem_singleton.mp hm with rfl
                exact Or.inr rfl
        | PHOTO =>
          cases hr : j.index "image_versions" with
          | error e => rw [hr, bindE_error] at h; exact absurd h (by simp)
          | ok vj =>
            rw [hr, bindE_ok] at h
            cases hve : vj.elems with
            | error e => rw [hve, bindE_error] at h; exact absurd h (by simp)
            | ok vv =>
              rw [hve, bindE_ok] at h
              cases hbc : get_best_candidate vv with
              | error e => rw [hbc, bindE_error] at h; exact absurd h (by simp)
              | ok url =>
                rw [hbc, bindE_ok, pureE] at h
                cases h
                rcases List.mem_singleton.mp hm with rfl
                exact Or.inl rfl
        | NONE =>
          simp only [hv, bindE_ok] at h
          exact absurd h (by simp)

/-- The album loop inherits the kinds invariant (the a1 parser reuses it). -/
theorem parse_album_v1_kinds (fuel : Nat) : ∀ (rs : List Json) (ms : List IgMedia),
    parse_album_v1 fuel rs = .ok ms →
    ∀ m ∈ ms, m.media_type = .PHOTO ∨ m.media_type = .VIDEO := by
  intro rs
  induction rs with
  | nil =>
    intro ms h m hm
    simp only [parse_album_v1] at h
    cases h
    simp at hm
  | cons r rs ihr =>
    intro ms h m hm
    simp only [parse_album_v1] at h
    cases hr : parse_resource_v1 fuel r with
    | error e => rw [hr, bindE_error] at h; exact absurd h (by simp)
    | ok first =>
      rw [hr, bindE_ok] at h
      cases hrest : parse_album_v1 fuel rs with
      | error e => rw [hrest, bindE_error] at h; exact absurd h (by simp)
      | ok rest =>
        rw [hrest, bindE_ok, pureE] at h
        cases h
        rcases List.mem_append.mp hm with hmem | hmem
        · exact parse_resource_v1_kinds fuel r first hr m hmem
        · exact ihr rest hrest m hmem

/-- Same kinds invariant for `parse_resource_a1`. -/
theorem parse_resource_a1_kinds (fuel : Nat) (j : Json) (ms : List IgMedia)
    (h : parse_resource_a1 fuel j = .ok ms) :
    ∀ m ∈ ms, m.media_type = .PHOTO ∨ m.media_type = .VIDEO := by
  intro m hm
  rw [parse_resource_a1] at h
  cases hv : j.index "media_type" with
  | error e => rw [hv, bindE_error] at h; exact absurd h (by simp)
  | ok v =>
    rw [hv, bindE_ok] at h
    cases hmt : mediaTypeOfJson v with
    | error e => rw [hmt, bindE_error] at h; exact absurd h (by simp)
    | ok mt =>
      rw [hmt, bindE_ok] at h
      cases mt with
      | ALBUM =>
        cases hr : j.index "carousel_media" with
        | error e => rw [hr, bindE_error] at h; exact absurd h (by simp)
        | ok rj =>
          rw [hr, bindE_ok] at h
          cases hre : rj.elems with
          | error e => rw [hre, bindE_error] at h; exact absurd h (by simp)
          | ok rs =>
            rw [hre, bindE_ok] at h
            exact parse_album_v1_kinds fuel rs ms h m hm
      | VIDEO =>
        cases hr : j.index "video_versions" with
        | error e => rw [hr, bindE_error] at h; exact absurd h (by simp)
        | ok vj =>
          rw [hr, bindE_ok] at h
          cases hve : vj.elems with
          | error e => rw [hve, bindE_error] at h; exact absurd h (by simp)
          | ok vv =>
            rw [hve, bindE_ok] at h
            cases hbc : get_best_candidate vv with
            | error e => rw [hbc, bindE_error] at h; exact absurd h (by simp)
            | ok url =>
              rw [hbc, bindE_ok, pureE] at h
              cases h
              rcases List.mem_singleton.mp hm with rfl
              exact Or.inr rfl
      | PHOTO =>
        cases hr : j.index "image_versions2" with
        | error e => rw [hr, bindE_error] at h; exact absurd h (by simp)
        | ok iv2 =>
          rw [hr, bindE_ok] at h
          cases hr2 : iv2.index "candidates" with
          | error e => rw [hr2, bindE_error] at h; exact absurd h (by simp)
          | ok cj =>
            rw [hr2, bindE_ok] at h
            cases hve : cj.elems with
            | error e => rw [hve, bindE_error] at h; exact absurd h (by simp)
            | ok vv =>
              rw [hve, bindE_ok] at h
              cases hbc : get_best_candidate vv with
              | error e => rw [hbc, bindE_error] at h; exact absurd h (by simp)
              | ok url =>
                rw [hbc, bindE_ok, pureE] at h
                cases h
                rcases List.mem_singleton.mp hm with rfl
                exact Or.inl rfl
      | NONE =>
        simp only [hv, bindE_ok] at h
        exact absurd h (by simp)

/-- Kinds invariant for the story media match. -/
theorem story_media_kinds (j : Json) (ms : List IgMedia) (h : story_media j = .ok ms) :
    ∀ m ∈ ms, m.media_type = .PHOTO ∨ m.media_type = .VIDEO := by
  intro m hm
  rw [story_media] at h
  cases hv : j.index "media_type" with
  | error e => rw [hv, bindE_error] at h; exact absurd h (by simp)
  | ok v =>
    rw [hv, bindE_ok] at h
    cases hmt : mediaTypeOfJson v with
    | error e => rw [hmt, bindE_error] at h; exact absurd h (by simp)
    | ok mt =>
      rw [hmt, bindE_ok] at h
      cases mt with
      | VIDEO =>
        cases hu : j.index "video_url" with
        | error e => rw [hu, bindE_error] at h; exact absurd h (by simp)
        | ok u =>
          rw [hu, bindE_ok] at h
          cases hs : u.asStr with
          | error e => rw [hs, bindE_error] at h; exact absurd h (by simp)
          | ok s =>
            rw [hs, bindE_ok, pureE] at h
            cases h
            rcases List.mem_singleton.mp hm with rfl
            exact Or.inr rfl
      | PHOTO =>
        cases hu : j.index "thumbnail_url" with
        | error e => rw [hu, bindE_error] at h; exact absurd h (by simp)
        | ok u =>
          rw [hu, bindE_ok] at h
          cases hs : u.asStr with
          | error e => rw [hs, bindE_error] at h; exact absurd h (by simp)
          | ok s =>
            rw [hs, bindE_ok, pureE] at h
            cases h
            rcases List.mem_singleton.mp hm with rfl
            exact Or.inl rfl
      | ALBUM =>
        simp only [hv, bindE_ok] at h
        exact absurd h (by simp)
      | NONE =>
        simp only [hv, bindE_ok] at h
        exact absurd h (by simp)

/-- Kinds invariant for the story parser. -/
theorem get_story_v1_kinds (j : Json) (p : IgPost) (h : get_story_v1_parse j = .ok p) :
    ∀ m ∈ p.media, m.media_type = .PHOTO ∨ m.media_type = .VIDEO := by
  intro m hm
  rw [get_story_v1_parse] at h
  cases hsm : story_media j with
  | error e => rw [hsm, bindE_error] at h; exact absurd h (by simp)
  | ok media =>
    rw [hsm, bindE_ok] at h
    cases hts : j.index "taken_at" with
    | error e => rw [hts, bindE_error] at h; exact absurd h (by simp)
    | ok tj =>
      rw [hts, bindE_ok] at h
      cases hti : tj.asInt with
      | error e => rw [hti, bindE_error] at h; exact absurd h (by simp)
      | ok ts =>
        rw [hti, bindE_ok] at h
        cases hpu : parse_user j with
        | error e => rw [hpu, bindE_error] at h; exact absurd h (by simp)
        | ok user =>
          rw [hpu, bindE_ok, pureE] at h
          cases h
          exact story_media_kinds j media hsm m hm

/-- Kinds invariant lifted to the full `get_post_v1` parse. -/
theorem get_post_v1_parse_kinds (fuel : Nat) (j : Json) (p : IgPost)
    (h : get_post_v1_parse fuel j = .ok p) :
    ∀ m ∈ p.media, m.media_type = .PHOTO ∨ m.media_type = .VIDEO := by
  intro m hm
  rw [get_post_v1_parse] at h
  cases hpu : parse_user j with
  | error e => rw [hpu, bindE_error] at h; exact absurd h (by simp)
  | ok user =>
    rw [hpu, bindE_ok] at h
    cases hpr : parse_resource_v1 fuel j with
    | error e => rw [hpr, bindE_error] at h; exact absurd h (by simp)
    | ok media =>
      rw [hpr, bindE_ok] at h
      cases hts : j.index "taken_at_ts" with
      | error e => rw [hts, bindE_error] at h; exact absurd h (by simp)
      | ok tj =>
        rw [hts, bindE_ok] at h
        cases hti : tj.asInt with
        | error e => rw [hti, bindE_error] at h; exact absurd h (by simp)
        | ok ts =>
          rw [hti, bindE_ok, pureE] at h
          cases h
          exact parse_resource_v1_kinds fuel j media hpr m hm

/-- Kinds invariant lifted to the full `get_post_a1` parse. -/
theorem get_post_a1_parse_kinds (fuel : Nat) (j : Json) (p : IgPost)
    (h : get_post_a1_parse fuel j = .ok p) :
    ∀ m ∈ p.media, m.media_type = .PHOTO ∨ m.media_type = .VIDEO := by
  intro m hm
  rw [get_post_a1_parse] at h
  cases hit : j.index "items" with
  | error e => rw [hit, bindE_error] at h; exact absurd h (by simp)
  | ok items =>
    rw [hit, bindE_ok] at h
    cases hat : items.atIdx 0 with
    | error e => rw [hat, bindE_error] at h; exact absurd h (by simp)
    | ok post =>
      rw [hat, bindE_ok] at h
      cases hpu : parse_user post with
      | error e => rw [hpu, bindE_error] at h; exact absurd h (by simp)
      | ok user =>
        rw [hpu, bindE_ok] at h
        cases hpr : parse_resource_a1 fuel post with
        | error e => rw [hpr, bindE_error] at h; exact absurd h (by simp)
        | ok media =>
          rw [hpr, bindE_ok] at h
          cases hts : post.index "taken_at" with
          | error e => rw [hts, bindE_error] at h; exact absurd h (by simp)
          | ok tj =>
            rw [hts, bindE_ok] at h
            cases hti : tj.asInt with
            | error e => rw [hti, bindE_error] at h; exact absurd h (by simp)
            | ok ts =>
              rw [hti, bindE_ok, pureE] at h
              cases h
              exact parse_resource_a1_kinds fuel post media hpr m hm

/-- A media-type value outside the enum (or the NONE member itself) makes
`parse_resource_v1` fail. -/
theorem parse_resource_v1_unknown (fuel : Nat) (j : Json) (n : Int)
    (hv : j.index "media_type" = .ok (.num n)) (h1 : n ≠ 1) (h2 : n ≠ 2) (h8 : n ≠ 8) :
    ∃ e, parse_resource_v1 fuel j = .error e := by
  cases fuel with
  | zero => exact ⟨.typeError "recursion limit", by simp [parse_resource_v1]⟩
  | succ fuel =>
    by_cases h0 : n = 0
    · subst h0
      refine ⟨.typeError ("Unknown IG media type " ++ (Json.num 0).fstr), ?_⟩
      rw [parse_resource_v1, hv, bindE_ok,
        show mediaTypeOfJson (.num 0) = .ok .NONE from rfl, bindE_ok]
      simp only [hv, bindE_ok]
    · refine ⟨.valueError "not a valid MediaType", ?_⟩
      rw [parse_resource_v1, hv, bindE_ok,
        show mediaTypeOfJson (.num n) = MediaType.ofCode n from rfl,
        MediaType.ofCode_unknown n h1 h2 h8 h0, bindE_error]

/-- Same hard error for `parse_resource_a1` (any fuel; a1 does not consume
fuel before the media-type dispatch). -/
theorem parse_resource_a1_unknown (fuel : Nat) (j : Json) (n : Int)
    (hv : j.index "media_type" = .ok (.num n)) (h1 : n ≠ 1) (h2 : n ≠ 2) (h8 : n ≠ 8) :
    ∃ e, parse_resource_a1 fuel j = .error e := by
  by_cases h0 : n = 0
  · subst h0
    refine ⟨.typeError ("Unknown IG media type " ++ (Json.num 0).fstr), ?_⟩
    rw [parse_resource_a1, hv, bindE_ok,
      show mediaTypeOfJson (.num 0) = .ok .NONE from rfl, bindE_ok]
    simp only [hv, bindE_ok]
  · refine ⟨.valueError "not a valid MediaType", ?_⟩
    rw [parse_resource_a1, hv, bindE_ok,
      show mediaTypeOfJson (.num n) = MediaType.ofCode n from rfl,
      MediaType.ofCode_unknown n h1 h2 h8 h0, bindE_error]

/-- The story match raises on anything that is not a photo or a video
(`ALBUM` and `NONE` both fall to its `case _` arm). -/
theorem story_media_unknown (j : Json) (n : Int)
    (hv : j.index "media_type" = .ok (.num n)) (h1 : n ≠ 1) (h2 : n ≠ 2) :
    ∃ e, story_media j = .error e := by
  by_cases h0 : n = 0
  · subst h0
    refine ⟨.typeError ("Unknown IG media type " ++ (Json.num 0).fstr), ?_⟩
    rw [story_media, hv, bindE_ok,
      show mediaTypeOfJson (.num 0) = .ok .NONE from rfl, bindE_ok]
    simp only [hv, bindE_ok]
  · by_cases h8 : n = 8
    · subst h8
      refine ⟨.typeError ("Unknown IG media type " ++ (Json.num 8).fstr), ?_⟩
      rw [story_media, hv, bindE_ok,
        show mediaTypeOfJson (.num 8) = .ok .ALBUM from rfl, bindE_ok]
      simp only [hv, bindE_ok]
    · refine ⟨.valueError "not a valid MediaType", ?_⟩
      rw [story_media, hv, bindE_ok,
        show mediaTypeOfJson (.num n) = MediaType.ofCode n from rfl,
        MediaType.ofCode_unknown n h1 h2 h8 h0, bindE_error]

/-- The hard error lifted to the whole `get_post_v1` operation. -/
theorem get_post_v1_parse_unknown (fuel : Nat) (j : Json) (n : Int)
    (hv : j.index "media_type" = .ok (.num n)) (h1 : n ≠ 1) (h2 : n ≠ 2) (h8 : n ≠ 8) :
    ∃ e, get_post_v1_parse fuel j = .error e := by
  cases hpu : parse_user j with
  | error e => exact ⟨e, by simp only [get_post_v1_parse, hpu, bindE_error]⟩
  | ok user =>
    obtain ⟨e, he⟩ := parse_resource_v1_unknown fuel j n hv h1 h2 h8
    exact ⟨e, by simp only [get_post_v1_parse, hpu, bindE_ok, he, bindE_error]⟩

/-- The hard error lifted to the whole `get_story_v1` operation. -/
theorem get_story_v1_parse_unknown (j : Json) (n : Int)
    (hv : j.index "media_type" = .ok (.num n)) (h1 : n ≠ 1) (h2 : n ≠ 2) :
    ∃ e, get_story_v1_parse j = .error e := by
  obtain ⟨e, he⟩ := story_media_unknown j n hv h1 h2
  exact ⟨e, by simp only [get_story_v1_parse, he, bindE_error]⟩

/-- The hard error lifted to the whole `get_post_a1` operation
(`post = data["items"][0]`). -/
theorem get_post_a1_parse_unknown (fuel : Nat) (j items post : Json) (n : Int)
    (hitems : j.index "items" = .ok items) (hat : items.atIdx 0 = .ok post)
    (hv : post.index "media_type" = .ok (.num n))
    (h1 : n ≠ 1) (h2 : n ≠ 2) (h8 : n ≠ 8) :
    ∃ e, get_post_a1_parse fuel j = .error e := by
  cases hpu : parse_user post with
  | error e =>
    exact ⟨e, by simp only [get_post_a1_parse, hitems, bindE_ok, hat, hpu, bindE_error]⟩
  | ok user =>
    obtain ⟨e, he⟩ := parse_resource_a1_unknown fuel post n hv h1 h2 h8
    exact ⟨e, by simp only [get_post_a1_parse, hitems, bindE_ok, hat, hpu, he, bindE_error]⟩

/-- `Instagram.parse_media` returns a `NONE`- or `ALBUM`-kind entry with an
empty URL instead of raising. -/
theorem parse_media_lenient (j : Json) :
    (j.index "media_type" = .ok (.num 0) → parse_media j = .ok ⟨.NONE, ""⟩) ∧
    (j.index "media_type" = .ok (.num 8) → parse_media j = .ok ⟨.ALBUM, ""⟩) := by
  constructor
  · intro hv
    simp only [parse_media, hv, bindE_ok]
    rfl
  · intro hv
    simp only [parse_media, hv, bindE_ok]
    rfl

/-- **C1 counterexample.** Two of the listed operations violate the claim at
concrete inputs: `get_post_graphql` parses a post whose `__typename` is the
unknown `"GraphMystery"` into a `NONE`-kind media entry (no hard error), and
`get_post_v1` parses an album with an empty `resources` list into a post with
an empty media sequence. -/
theorem C1_counterexample :
    (get_post_graphql_parse (.obj [("data", .obj [("shortcode_media", .obj [
        ("__typename", .str "GraphMystery"),
        ("display_resources", .arr [.obj [("src", .str "u")]]),
        ("taken_at_timestamp", .num 5),
        ("owner", .obj [("id", .num 1), ("username", .str "x"),
          ("profile_pic_url", .str "p")])])])])).map IgPost.media
      = .ok [⟨.NONE, "u"⟩] ∧
    (get_post_v1_parse (0 + 1) (.obj [("user", .obj [("pk", .num 1),
        ("username", .str "un"), ("profile_pic_url", .str "p")]),
        ("media_type", .num 8), ("resources", .arr []),
        ("taken_at_ts", .num 0)])).map IgPost.media = .ok [] := by
  constructor
  · rfl
  · set J : Json := .obj [("user", .obj [("pk", .num 1),
      ("username", .str "un"), ("profile_pic_url", .str "p")]),
      ("media_type", .num 8), ("resources", .arr []),
      ("taken_at_ts", .num 0)] with hJ
    have h1 : parse_user J = .ok ⟨.num 1, "un", "p"⟩ := rfl
    have h2 : J.index "media_type" = .ok (.num 8) := rfl
    have h3 : mediaTypeOfJson (.num 8) = .ok .ALBUM := rfl
    have h4 : J.index "resources" = .ok (.arr []) := rfl
    have h5 : (Json.arr []).elems = .ok [] := rfl
    have h6 : parse_album_v1 0 [] = .ok [] := by simp [parse_album_v1]
    have h7 : parse_resource_v1 (0 + 1) J = .ok [] := by
      simp only [parse_resource_v1, h2, bindE_ok, h3, h4, h5, h6]
    have h8 : J.index "taken_at_ts" = .ok (.num 0) := rfl
    simp only [get_post_v1_parse, h1, bindE_ok, h7, h8, pureE]
    rfl

open MediaType in
/-- **C1 (amended).** For the aggregator parsers (`get_post_v1`,
`get_story_v1`, `get_post_a1`) every media entry of a successfully parsed
post is Photo or Video — never Album or None — and a None/unknown media-type
value is a hard parse error, both at the per-resource rules
(`parse_resource_v1`, `parse_resource_a1`, the story match) and at each of
the three operations themselves; but `Post.media` may be empty (an album
with no resources), and the direct client's `parse_media` (used by
`get_post` and `get_story`) maps a None/Album-typed resource to an entry of
that kind with an empty URL instead of raising. -/
theorem C1_media_kind_invariants :
    (∀ (fuel : Nat) (j : Json) (ms : List IgMedia), parse_resource_v1 fuel j = .ok ms →
      ∀ m ∈ ms, m.media_type = PHOTO ∨ m.media_type = VIDEO) ∧
    (∀ (fuel : Nat) (j : Json) (ms : List IgMedia), parse_resource_a1 fuel j = .ok ms →
      ∀ m ∈ ms, m.media_type = PHOTO ∨ m.media_type = VIDEO) ∧
    (∀ (fuel : Nat) (j : Json) (p : IgPost), get_post_v1_parse fuel j = .ok p →
      ∀ m ∈ p.media, m.media_type = PHOTO ∨ m.media_type = VIDEO) ∧
    (∀ (j : Json) (p : IgPost), get_story_v1_parse j = .ok p →
      ∀ m ∈ p.media, m.media_type = PHOTO ∨ m.media_type = VIDEO) ∧
    (∀ (fuel : Nat) (j : Json) (p : IgPost), get_post_a1_parse fuel j = .ok p →
      ∀ m ∈ p.media, m.media_type = PHOTO ∨ m.media_type = VIDEO) ∧
    (∀ (fuel : Nat) (j : Json) (n : Int), j.index "media_type" = .ok (.num n) →
      n ≠ 1 → n ≠ 2 → n ≠ 8 → ∃ e, parse_resource_v1 fuel j = .error e) ∧
    (∀ (fuel : Nat) (j : Json) (n : Int), j.index "media_type" = .ok (.num n) →
      n ≠ 1 → n ≠ 2 → n ≠ 8 → ∃ e, parse_resource_a1 fuel j = .error e) ∧
    (∀ (j : Json) (n : Int), j.index "media_type" = .ok (.num n) →
      n ≠ 1 → n ≠ 2 → ∃ e, story_media j = .error e) ∧
    (∀ (fuel : Nat) (j : Json) (n : Int), j.index "media_type" = .ok (.num n) →
      n ≠ 1 → n ≠ 2 → n ≠ 8 → ∃ e, get_post_v1_parse fuel j = .error e) ∧
    (∀ (j : Json) (n : Int), j.index "media_type" = .ok (.num n) →
      n ≠ 1 → n ≠ 2 → ∃ e, get_story_v1_parse j = .error e) ∧
    (∀ (fuel : Nat) (j items post : Json) (n : Int),
      j.index "items" = .ok items → items.atIdx 0 = .ok post →
      post.index "media_type" = .ok (.num n) →
      n ≠ 1 → n ≠ 2 → n ≠ 8 → ∃ e, get_post_a1_parse fuel j = .error e) ∧
    (∀ j : Json,
      (j.index "media_type" = .ok (.num 0) → parse_media j = .ok ⟨NONE, ""⟩) ∧
      (j.index "media_type" = .ok (.num 8) → parse_media j = .ok ⟨ALBUM, ""⟩)) :=
  ⟨parse_resource_v1_kinds,
   fun fuel j ms h => parse_resource_a1_kinds fuel j ms h,
   fun fuel j p h => get_post_v1_parse_kinds fuel j p h,
   fun j p h => get_story_v1_kinds j p h,
   fun fuel j p h => get_post_a1_parse_kinds fuel j p h,
   fun fuel j n hv h1 h2 h8 => parse_resource_v1_unknown fuel j n hv h1 h2 h8,
   fun fuel j n hv h1 h2 h8 => parse_resource_a1_unknown fuel j n hv h1 h2 h8,
   fun j n hv h1 h2 => story_media_unknown j n hv h1 h2,
   fun fuel j n hv h1 h2 h8 => get_post_v1_parse_unknown fuel j n hv h1 h2 h8,
   fun j n hv h1 h2 => get_story_v1_parse_unknown j n hv h1 h2,
   fun fuel j items post n hi ha hv h1 h2 h8 =>
     get_post_a1_parse_unknown fuel j items post n hi ha hv h1 h2 h8,
   fun j => parse_media_lenient j⟩

/-- Witness for C1 (amended): a concrete video resource parses to a
video-kind entry; media type 7 is rejected by the v1 and a1 rules; an
album-typed story and a NONE-typed a1 post fail as whole operations; media
type 0 passes through `parse_media` as an empty-URL entry. -/
theorem C1_witness :
    ((IgMedia.mk .VIDEO "b").media_type = .PHOTO ∨
      (IgMedia.mk .VIDEO "b").media_type = .VIDEO) ∧
    (∃ e, parse_resource_v1 3 (.obj [("media_type", .num 7)]) = .error e) ∧
    (∃ e, parse_resource_a1 3 (.obj [("media_type", .num 7)]) = .error e) ∧
    (∃ e, get_story_v1_parse (.obj [("media_type", .num 8)]) = .error e) ∧
    (∃ e, get_post_a1_parse 3
      (.obj [("items", .arr [.obj [("media_type", .num 0)]])]) = .error e) ∧
    parse_media (.obj [("media_type", .num 0)]) = .ok ⟨.NONE, ""⟩ := by
  refine ⟨?_, ?_, ?_, ?_, ?_, ?_⟩
  · refine C1_media_kind_invariants.1 (0 + 1)
      (.obj [("media_type", .num 2),
        ("video_versions", .arr [mkCandidate (1, 1, "a"), mkCandidate (2, 2, "b")])])
      [IgMedia.mk .VIDEO "b"] ?_ (IgMedia.mk .VIDEO "b") (by simp)
    simp only [parse_resource_v1]
    rfl
  · exact C1_media_kind_invariants.2.2.2.2.2.1 3 (.obj [("media_type", .num 7)]) 7
      rfl (by decide) (by decide) (by decide)
  · exact C1_media_kind_invariants.2.2.2.2.2.2.1 3 (.obj [("media_type", .num 7)]) 7
      rfl (by decide) (by decide) (by decide)
  · exact C1_media_kind_invariants.2.2.2.2.2.2.2.2.2.1
      (.obj [("media_type", .num 8)]) 8 rfl (by decide) (by decide)
  · exact C1_media_kind_invariants.2.2.2.2.2.2.2.2.2.2.1 3
      (.obj [("items", .arr [.obj [("media_type", .num 0)]])])
      (.arr [.obj [("media_type", .num 0)]]) (.obj [("media_type", .num 0)]) 0
      rfl rfl rfl (by decide) (by decide) (by decide)
  · exact (C1_media_kind_invariants.2.2.2.2.2.2.2.2.2.2.2
      (.obj [("media_type", .num 0)])).1 rfl

/-! ## Per-item URL selection (C2) -/

theorem bindE_pure_map {α β : Type} (x : Except PyError α) (f : α → β) :
    (x >>= fun a => pure (f a)) = x.map f := by
  cases x <;> rfl

theorem urlExtract_map (x : Except PyError Json) (mt : MediaType) :
    (x >>= fun a => a.asStr >>= fun s => pure (IgMedia.mk mt s))
      = (x >>= Json.asStr).map (IgMedia.mk mt) := by
  cases x with
  | error e => rfl
  | ok a =>
    simp only [bindE_ok]
    cases h : a.asStr with
    | error e => rfl
    | ok s => rfl

/-- **C2 counterexample.** The claim fails in both directions at concrete
inputs: the direct client's `parse_media` picks the *first* image candidate
("a"), not the §4.4 best candidate ("b"); and the aggregator's
`parse_resource_v1` picks the *best* video version ("b"), not the first
listed one ("a"). -/
theorem C2_counterexample :
    parse_media (.obj [("media_type", .num 1), ("image_versions2", .obj [("candidates",
        .arr [mkCandidate (1, 1, "a"), mkCandidate (2, 2, "b")])])])
      = .ok ⟨.PHOTO, "a"⟩ ∧
    specBestByArea [(1, 1, "a"), (2, 2, "b")] = some (2, 2, "b") ∧
    parse_resource_v1 (0 + 1) (.obj [("media_type", .num 2), ("video_versions",
        .arr [mkCandidate (1, 1, "a"), mkCandidate (2, 2, "b")])])
      = .ok [⟨.VIDEO, "b"⟩] ∧
    ("a" : String) ≠ "b" := by
  refine ⟨rfl, rfl, ?_, by decide⟩
  simp only [parse_resource_v1]
  rfl

/-- **C2 (amended).** In the aggregator's per-item rules
(`parse_resource_v1`, `parse_resource_a1`) **both** photo and video
resources choose their URL through `get_best_candidate` (the §4.4 rule with
no exact target); in the direct client's `parse_media` **both** photo and
video take the first listed entry (`candidates[0]` / `video_versions[0]`). -/
theorem C2_per_item_url_selection :
    (∀ (fuel : Nat) (j : Json) (vv : List Json),
      j.index "media_type" = .ok (.num 2) →
      j.index "video_versions" = .ok (.arr vv) →
      parse_resource_v1 (fuel + 1) j
        = (get_best_candidate vv).map (fun url => [⟨.VIDEO, url⟩])) ∧
    (∀ (fuel : Nat) (j : Json) (iv : List Json),
      j.index "media_type" = .ok (.num 1) →
      j.index "image_versions" = .ok (.arr iv) →
      parse_resource_v1 (fuel + 1) j
        = (get_best_candidate iv).map (fun url => [⟨.PHOTO, url⟩])) ∧
    (∀ (fuel : Nat) (j : Json) (vv : List Json),
      j.index "media_type" = .ok (.num 2) →
      j.index "video_versions" = .ok (.arr vv) →
      parse_resource_a1 fuel j
        = (get_best_candidate vv).map (fun url => [⟨.VIDEO, url⟩])) ∧
    (∀ (fuel : Nat) (j iv2 : Json) (cands : List Json),
      j.index "media_type" = .ok (.num 1) →
      j.index "image_versions2" = .ok iv2 →
      iv2.index "candidates" = .ok (.arr cands) →
      parse_resource_a1 fuel j
        = (get_best_candidate cands).map (fun url => [⟨.PHOTO, url⟩])) ∧
    (∀ (j iv2 c : Json) (cands : List Json),
      j.index "media_type" = .ok (.num 1) →
      j.index "image_versions2" = .ok iv2 →
      iv2.index "candidates" = .ok (.arr (c :: cands)) →
      parse_media j = (c.index "url" >>= Json.asStr).map (IgMedia.mk .PHOTO)) ∧
    (∀ (j c : Json) (vv : List Json),
      j.index "media_type" = .ok (.num 2) →
      j.index "video_versions" = .ok (.arr (c :: vv)) →
      parse_media j = (c.index "url" >>= Json.asStr).map (IgMedia.mk .VIDEO)) := by
  refine ⟨?_, ?_, ?_, ?_, ?_, ?_⟩
  · intro fuel j vv hv hvv
    simp only [parse_resource_v1, hv, bindE_ok,
      show mediaTypeOfJson (.num 2) = .ok .VIDEO from rfl, hvv,
      show (Json.arr vv).elems = .ok vv from rfl]
    exact bindE_pure_map _ _
  · intro fuel j iv hv hiv
    simp only [parse_resource_v1, hv, bindE_ok,
      show mediaTypeOfJson (.num 1) = .ok .PHOTO from rfl, hiv,
      show (Json.arr iv).elems = .ok iv from rfl]
    exact bindE_pure_map _ _
  · intro fuel j vv hv hvv
    simp only [parse_resource_a1, hv, bindE_ok,
      show mediaTypeOfJson (.num 2) = .ok .VIDEO from rfl, hvv,
      show (Json.arr vv).elems = .ok vv from rfl]
    exact bindE_pure_map _ _
  · intro fuel j iv2 cands hv hiv2 hcands
    simp only [parse_resource_a1, hv, bindE_ok,
      show mediaTypeOfJson (.num 1) = .ok .PHOTO from rfl, hiv2, hcands,
      show (Json.arr cands).elems = .ok cands from rfl]
    exact bindE_pure_map _ _
  · intro j iv2 c cands hv hiv2 hcands
    simp only [parse_media, hv, bindE_ok,
      show (Json.num 1).toInt = .ok 1 from rfl,
      show MediaType.ofCode 1 = .ok .PHOTO from rfl, hiv2, hcands,
      show (Json.arr (c :: cands)).atIdx 0 = .ok c from rfl]
    exact urlExtract_map _ _
  · intro j c vv hv hvv
    simp only [parse_media, hv, bindE_ok,
      show (Json.num 2).toInt = .ok 2 from rfl,
      show MediaType.ofCode 2 = .ok .VIDEO from rfl, hvv,
      show (Json.arr (c :: vv)).atIdx 0 = .ok c from rfl]
    exact urlExtract_map _ _

/-- Witness for C2 (amended) at concrete two-candidate inputs. -/
theorem C2_witness :
    parse_resource_v1 (0 + 1) (.obj [("media_type", .num 2), ("video_versions",
        .arr [mkCandidate (1, 1, "a"), mkCandidate (2, 2, "b")])])
      = (get_best_candidate [mkCandidate (1, 1, "a"), mkCandidate (2, 2, "b")]).map
          (fun url => [⟨.VIDEO, url⟩]) ∧
    parse_media (.obj [("media_type", .num 1), ("image_versions2", .obj [("candidates",
        .arr [mkCandidate (1, 1, "a"), mkCandidate (2, 2, "b")])])])
      = ((mkCandidate (1, 1, "a")).index "url" >>= Json.asStr).map (IgMedia.mk .PHOTO) := by
  constructor
  · exact C2_per_item_url_selection.1 0 _ _ rfl rfl
  · exact C2_per_item_url_selection.2.2.2.2.1 _ _ (mkCandidate (1, 1, "a")) _ rfl rfl rfl

/-! ## Direct-client failure modes (C7) -/

/-- **C7.** For both direct-client request paths (the GraphQL endpoint and
the internal v1 API): a non-JSON response body raises `ExpiredCookie`, and a
JSON body whose `status` field is not `"ok"` raises `InstagramError`
carrying the API's `message` field (the GraphQL path prefixes it with the
HTTP status). -/
theorem C7_direct_client_failure_modes :
    (∀ resp : HttpResponse, resp.body = none →
      graphql_request resp = .error .expiredCookie ∧
      v1_api_request resp = .error .expiredCookie) ∧
    (∀ (resp : HttpResponse) (data s : Json), resp.body = some data →
      data.index "status" = .ok s → s.isStrEq "ok" = false →
      graphql_request resp = .error (.instagramError
        ("[HTTP " ++ toString resp.status ++ "] " ++ Json.fstrOpt (data.get "message"))) ∧
      v1_api_request resp = .error (.instagramError (Json.fstrOpt (data.get "message")))) := by
  constructor
  · intro resp hb
    constructor <;> simp only [graphql_request, v1_api_request, hb]
  · intro resp data s hb hs hok
    constructor <;>
      simp only [graphql_request, v1_api_request, hb, hs, hok, Bool.false_eq_true,
        if_false]

/-- Witness for C7 at concrete responses. -/
theorem C7_witness :
    graphql_request ⟨200, none, "<html>"⟩ = .error .expiredCookie ∧
    v1_api_request ⟨403, some (.obj [("status", .str "fail"),
        ("message", .str "checkpoint_required")]), ""⟩
      = .error (.instagramError "checkpoint_required") := by
  constructor
  · exact (C7_direct_client_failure_modes.1 ⟨200, none, "<html>"⟩ rfl).1
  · exact (C7_direct_client_failure_modes.2
      ⟨403, some (.obj [("status", .str "fail"), ("message", .str "checkpoint_required")]), ""⟩
      (.obj [("status", .str "fail"), ("message", .str "checkpoint_required")])
      (.str "fail") rfl rfl rfl).2

/-! ## Aggregator cache behavior (C6) -/

theorem redisGet_set_self (r : Redis) (k : String) (v : Json) (ttl : Nat) :
    redisGet (redisSet r k v ttl) k = some v := by
  simp [redisGet, redisSet]

/-- **C6 counterexample.** The cache key does **not** sort the query
parameters: `urlencode` keeps the given order.  With the spec's sorted key
(`?a=2&b=1`) already cached, a request with parameters `[b=1, a=2]` still
misses the cache, makes an outbound call, and returns the network's (JSON
object) body rather than the cached value. -/
theorem C6_counterexample :
    specSortedCacheKey "/x" [("b", "1"), ("a", "2")] = "https://api.datalama.io/x?a=2&b=1" ∧
    (api_request (fun _ _ => ⟨200, some (.obj [("k", .num 1)]), ""⟩)
        [⟨specSortedCacheKey "/x" [("b", "1"), ("a", "2")], .str "cached", 86400⟩]
        "/x" [("b", "1"), ("a", "2")]).outboundCalls = 1 ∧
    (api_request (fun _ _ => ⟨200, some (.obj [("k", .num 1)]), ""⟩)
        [⟨specSortedCacheKey "/x" [("b", "1"), ("a", "2")], .str "cached", 86400⟩]
        "/x" [("b", "1"), ("a", "2")]).result = .ok (.obj [("k", .num 1)]) := by
  refine ⟨?_, ?_, ?_⟩ <;> rfl

/-- **C6 (amended).** The cache key is the target URL plus the query
parameters **in the order given** (`urlencode` without sorting); on a cache
hit the cached JSON is returned with no outbound call; a miss followed by a
successful response (a JSON object body, ok status, neither `exc_type` nor
`detail` set) stores the body under that key with a 24-hour (86400 s) expiry
before returning it, so two identical back-to-back requests cause exactly
one outbound call. -/
theorem C6_cache_behavior :
    (∀ (net : String → List (String × String) → HttpResponse) (redis : Redis)
        (ep : String) (ps : List (String × String)) (cached : Json),
      redisGet redis (BASE_URL ++ ep ++ "?" ++ urlencode ps) = some cached →
      api_request net redis ep ps = ⟨.ok cached, redis, 0⟩) ∧
    (∀ (net : String → List (String × String) → HttpResponse) (redis : Redis)
        (ep : String) (ps : List (String × String)) (data : Json)
        (exc det : Option Json),
      redisGet redis (BASE_URL ++ ep ++ "?" ++ urlencode ps) = none →
      (net ep ps).body = some data →
      responseOk (net ep ps).status = true →
      data.pyGet "exc_type" = .ok exc → optNotNone exc = false →
      data.pyGet "detail" = .ok det → optNotNone det = false →
      api_request net redis ep ps
        = ⟨.ok data, redisSet redis (BASE_URL ++ ep ++ "?" ++ urlencode ps) data 86400, 1⟩) ∧
    (∀ (net : String → List (String × String) → HttpResponse) (redis : Redis)
        (ep : String) (ps : List (String × String)) (data : Json)
        (exc det : Option Json),
      redisGet redis (BASE_URL ++ ep ++ "?" ++ urlencode ps) = none →
      (net ep ps).body = some data →
      responseOk (net ep ps).status = true →
      data.pyGet "exc_type" = .ok exc → optNotNone exc = false →
      data.pyGet "detail" = .ok det → optNotNone det = false →
      (api_request net (api_request net redis ep ps).redis ep ps).outboundCalls = 0 ∧
      (api_request net (api_request net redis ep ps).redis ep ps).result = .ok data ∧
      (api_request net redis ep ps).outboundCalls = 1) := by
  have hit : ∀ (net : String → List (String × String) → HttpResponse) (redis : Redis)
      (ep : String) (ps : List (String × String)) (cached : Json),
      redisGet redis (BASE_URL ++ ep ++ "?" ++ urlencode ps) = some cached →
      api_request net redis ep ps = ⟨.ok cached, redis, 0⟩ := by
    intro net redis ep ps cached hc
    simp only [api_request, hc]
  have miss : ∀ (net : String → List (String × String) → HttpResponse) (redis : Redis)
      (ep : String) (ps : List (String × String)) (data : Json)
      (exc det : Option Json),
      redisGet redis (BASE_URL ++ ep ++ "?" ++ urlencode ps) = none →
      (net ep ps).body = some data →
      responseOk (net ep ps).status = true →
      data.pyGet "exc_type" = .ok exc → optNotNone exc = false →
      data.pyGet "detail" = .ok det → optNotNone det = false →
      api_request net redis ep ps
        = ⟨.ok data, redisSet redis (BASE_URL ++ ep ++ "?" ++ urlencode ps) data 86400, 1⟩ := by
    intro net redis ep ps data exc det hc hb hok hexc hexcN hdet hdetN
    simp only [api_request, hc, hb, hok, hexc, hexcN, hdet, hdetN, Bool.not_true,
      Bool.false_eq_true, if_false]
  refine ⟨hit, miss, ?_⟩
  intro net redis ep ps data exc det hc hb hok hexc hexcN hdet hdetN
  have h1 := miss net redis ep ps data exc det hc hb hok hexc hexcN hdet hdetN
  have h2 := hit net (redisSet redis (BASE_URL ++ ep ++ "?" ++ urlencode ps) data 86400)
    ep ps data (redisGet_set_self _ _ _ _)
  refine ⟨?_, ?_, ?_⟩ <;> simp only [h1, h2]

/-- Witness for C6 (amended): one concrete request misses, stores, and the
identical second request is served from the cache with no outbound call. -/
theorem C6_witness :
    api_request (fun _ _ => ⟨200, some (.obj [("k", .num 1)]), ""⟩) [] "/x" [("code", "abc")]
      = ⟨.ok (.obj [("k", .num 1)]),
          redisSet [] (BASE_URL ++ "/x" ++ "?" ++ urlencode [("code", "abc")])
            (.obj [("k", .num 1)]) 86400, 1⟩ ∧
    (api_request (fun _ _ => ⟨200, some (.obj [("k", .num 1)]), ""⟩)
        (api_request (fun _ _ => ⟨200, some (.obj [("k", .num 1)]), ""⟩)
          [] "/x" [("code", "abc")]).redis
        "/x" [("code", "abc")]).outboundCalls = 0 := by
  constructor
  · exact C6_cache_behavior.2.1 (fun _ _ => ⟨200, some (.obj [("k", .num 1)]), ""⟩)
      [] "/x" [("code", "abc")] (.obj [("k", .num 1)]) none none rfl rfl rfl rfl rfl rfl rfl
  · exact (C6_cache_behavior.2.2 (fun _ _ => ⟨200, some (.obj [("k", .num 1)]), ""⟩)
      [] "/x" [("code", "abc")] (.obj [("k", .num 1)]) none none
      rfl rfl rfl rfl rfl rfl rfl).1

/-! ## Aggregator error surfacing (C8) -/

/-- **C8 counterexample.** A transport failure (non-JSON body) combined with
a non-2xx status is *not* surfaced as `InstagramError`: `raise_for_status()`
fires first and raises the HTTP client's own status error. -/
theorem C8_counterexample :
    (api_request (fun _ _ => ⟨404, none, "busted"⟩) [] "/x" []).result
      = .error (.clientResponseError 404) ∧
    PyError.isInstagramError (.clientResponseError 404) = false :=
  ⟨rfl, rfl⟩

/-- **C8 (amended).** On a cache miss: an application-level failure on a JSON
**object** body (non-2xx status, or an `exc_type` or `detail` field present)
raises `InstagramError`, and a non-JSON body with a 2xx status raises
`InstagramError` with a different message; but a non-JSON body with a
non-2xx status raises the HTTP client's own status error
(`response.raise_for_status()`), and a JSON body that is not an object
raises `AttributeError` from `data.get` — neither of those two is an
`InstagramError`. -/
theorem C8_aggregator_error_kinds :
    (∀ (net : String → List (String × String) → HttpResponse) (redis : Redis)
        (ep : String) (ps : List (String × String)) (data : Json)
        (exc det : Option Json),
      redisGet redis (BASE_URL ++ ep ++ "?" ++ urlencode ps) = none →
      (net ep ps).body = some data →
      data.pyGet "exc_type" = .ok exc →
      data.pyGet "detail" = .ok det →
      (!responseOk (net ep ps).status || optNotNone exc || optNotNone det) = true →
      (api_request net redis ep ps).result = .error (.instagramError
        ("ERROR " ++ toString (net ep ps).status ++ " | "
          ++ Json.fstrOpt exc ++ " | " ++ Json.fstrOpt det))) ∧
    (∀ (net : String → List (String × String) → HttpResponse) (redis : Redis)
        (ep : String) (ps : List (String × String)),
      redisGet redis (BASE_URL ++ ep ++ "?" ++ urlencode ps) = none →
      (net ep ps).body = none →
      responseOk (net ep ps).status = true →
      (api_request net redis ep ps).result
        = .error (.instagramError (toString (net ep ps).status ++ " | " ++ (net ep ps).text))) ∧
    (∀ (net : String → List (String × String) → HttpResponse) (redis : Redis)
        (ep : String) (ps : List (String × String)),
      redisGet redis (BASE_URL ++ ep ++ "?" ++ urlencode ps) = none →
      (net ep ps).body = none →
      responseOk (net ep ps).status = false →
      (api_request net redis ep ps).result
        = .error (.clientResponseError (net ep ps).status)) ∧
    (∀ (net : String → List (String × String) → HttpResponse) (redis : Redis)
        (ep : String) (ps : List (String × String)) (data : Json) (e : PyError),
      redisGet redis (BASE_URL ++ ep ++ "?" ++ urlencode ps) = none →
      (net ep ps).body = some data →
      data.pyGet "exc_type" = .error e →
      (api_request net redis ep ps).result = .error e) := by
  refine ⟨?_, ?_, ?_, ?_⟩
  · intro net redis ep ps data exc det hc hb hexc hdet hfail
    by_cases hok : responseOk (net ep ps).status
    · simp only [hok, Bool.not_true, Bool.false_or] at hfail
      by_cases hexcN : optNotNone exc
      · simp only [api_request, hc, hb, hok, hexc, hexcN, hdet, Bool.not_true,
          Bool.false_eq_true, if_false, if_true]
      · simp only [hexcN, Bool.false_or] at hfail
        simp only [api_request, hc, hb, hok, hexc, hexcN, hdet, hfail, Bool.not_true,
          Bool.false_eq_true, if_false]
    · simp only [api_request, hc, hb, eq_false_of_ne_true hok, Bool.not_false, if_true,
        hexc, hdet]
  · intro net redis ep ps hc hb hok
    simp only [api_request, hc, hb, hok, Bool.not_true, Bool.false_eq_true, if_false]
  · intro net redis ep ps hc hb hok
    simp only [api_request, hc, hb, hok, Bool.not_false, if_true]
  · intro net redis ep ps data e hc hb hexc
    by_cases hok : responseOk (net ep ps).status
    · simp only [api_request, hc, hb, hok, hexc, Bool.not_true, Bool.false_eq_true,
        if_false]
    · simp only [api_request, hc, hb, eq_false_of_ne_true hok, Bool.not_false, if_true,
        hexc]

/-- Witness for C8 (amended) at concrete responses: a 500 with an object
body, a 200 with a non-JSON body, a 404 with a non-JSON body, and a 404
whose JSON body is a list (no `.get`). -/
theorem C8_witness :
    (api_request (fun _ _ => ⟨500, some (.obj []), ""⟩) [] "/x" []).result
      = .error (.instagramError "ERROR 500 | None | None") ∧
    (api_request (fun _ _ => ⟨200, none, "oops"⟩) [] "/x" []).result
      = .error (.instagramError "200 | oops") ∧
    (api_request (fun _ _ => ⟨404, none, "busted"⟩) [] "/x" []).result
      = .error (.clientResponseError 404) ∧
    (api_request (fun _ _ => ⟨404, some (.arr []), ""⟩) [] "/x" []).result
      = .error (.attributeError "object has no attribute get") := by
  refine ⟨?_, ?_, ?_, ?_⟩
  · exact C8_aggregator_error_kinds.1 (fun _ _ => ⟨500, some (.obj []), ""⟩)
      [] "/x" [] (.obj []) none none rfl rfl rfl rfl rfl
  · exact C8_aggregator_error_kinds.2.1 (fun _ _ => ⟨200, none, "oops"⟩) [] "/x" [] rfl rfl rfl
  · exact C8_aggregator_error_kinds.2.2.1 (fun _ _ => ⟨404, none, "busted"⟩)
      [] "/x" [] rfl rfl rfl
  · exact C8_aggregator_error_kinds.2.2.2 (fun _ _ => ⟨404, some (.arr []), ""⟩)
      [] "/x" [] (.arr []) (.attributeError "object has no attribute get") rfl rfl rfl

end Miso
